import Mathlib

/-!
Verification development for the GB3000 Game Boy emulator core
(Rust sources: memory.rs, timer.rs, cpu.rs, ppu.rs, apu.rs, lib.rs).

The Rust code is shallowly embedded: machine integers (u8, u16, u32)
become Nat with explicit reductions modulo 2^8 / 2^16 at the points
where the Rust code wraps or casts; the 64 KiB data array becomes a
function from addresses to bytes; Vec becomes List; fallible paths
(Rust panics on illegal opcodes) become Except.
-/

set_option maxHeartbeats 4000000
set_option maxRecDepth 10000

namespace GB

/-- Cartridge controller kind, mirroring enum MbcType in memory.rs. -/
inductive MbcType where
  | none
  | mbc1
  | mbc2
  | mbc3
  | mbc5
deriving DecidableEq, Repr

/-- The memory subsystem, mirroring struct Memory in memory.rs.
The 64 KiB array data is a function from addresses to byte values;
rom and eram are byte lists. -/
structure Memory where
  data : Nat → Nat
  rom : List Nat
  eram : List Nat
  rom_bank : Nat
  ram_bank : Nat
  ram_enabled : Bool
  mbc_type : MbcType
  banking_mode : Nat
  joypad_state : Nat
  dma_active : Bool
  dma_source : Nat
  dma_offset : Nat

/-- Pointwise update of the 64 KiB data array (an assignment
data[addr] = v in the Rust code). -/
def Memory.setData (m : Memory) (addr v : Nat) : Memory :=
  { m with data := fun i => if i = addr then v else m.data i }

/-- Memory::new - memory initialized to zero except for a few
power-on register values (LCDC, BGP, OBP0, OBP1, JOYP). -/
def Memory.new : Memory :=
  let base : Memory :=
    { data := fun _ => 0
      rom := []
      eram := List.replicate 0x8000 0
      rom_bank := 1
      ram_bank := 0
      ram_enabled := false
      mbc_type := MbcType.none
      banking_mode := 0
      joypad_state := 0xFF
      dma_active := false
      dma_source := 0
      dma_offset := 0 }
  ((((base.setData 0xFF40 0x91).setData 0xFF47 0xFC).setData
      0xFF48 0xFF).setData 0xFF49 0xFF).setData 0xFF00 0xCF

/-- Memory::read_joypad - joypad register with button/direction
selection; buttons are active low. -/
def Memory.read_joypad (m : Memory) : Nat :=
  let select := m.data 0xFF00
  let result := select ||| 0x0F
  let result := if select &&& 0x20 = 0 then
    result &&& ((m.joypad_state >>> 4) ||| 0xF0) else result
  let result := if select &&& 0x10 = 0 then
    result &&& ((m.joypad_state &&& 0x0F) ||| 0xF0) else result
  result ||| 0xC0

/-- Memory::read_byte - address decoding for reads.  Out-of-range
banked ROM / external RAM offsets yield 0xFF (unwrap_or in Rust). -/
def Memory.read_byte (m : Memory) (addr : Nat) : Nat :=
  if addr ≤ 0x3FFF then
    -- ROM bank 0 (MBC1 banking mode 1 uses ram_bank shifted left 5)
    if m.mbc_type = MbcType.mbc1 ∧ m.banking_mode = 1 then
      let bank := m.ram_bank <<< 5
      let offset := bank * 0x4000 + addr
      m.rom.getD offset 0xFF
    else
      m.rom.getD addr 0xFF
  else if addr ≤ 0x7FFF then
    -- switchable ROM bank
    let bank := m.rom_bank
    let offset := bank * 0x4000 + (addr - 0x4000)
    m.rom.getD offset 0xFF
  else if 0xA000 ≤ addr ∧ addr ≤ 0xBFFF then
    -- external RAM
    if m.ram_enabled then
      let bank := m.ram_bank
      let offset := bank * 0x2000 + (addr - 0xA000)
      m.eram.getD offset 0xFF
    else 0xFF
  else if 0xE000 ≤ addr ∧ addr ≤ 0xFDFF then
    -- echo RAM
    m.data (addr - 0x2000)
  else if addr = 0xFF00 then
    m.read_joypad
  else if 0xFEA0 ≤ addr ∧ addr ≤ 0xFEFF then
    0xFF
  else
    m.data addr

/-- Memory::write_io - hardware register write semantics for
addresses 0xFF00 to 0xFF7F (named write_io in memory.rs). -/
def Memory.write_ioreg (m : Memory) (addr v : Nat) : Memory :=
  if addr = 0xFF00 then
    -- JOYP: only bits 4-5 writable
    m.setData addr ((v &&& 0x30) ||| (m.data addr &&& 0xCF))
  else if addr = 0xFF04 then
    -- DIV: any write resets it to 0
    m.setData addr 0
  else if addr = 0xFF46 then
    -- DMA start
    { m.setData addr v with
        dma_source := v <<< 8, dma_active := true, dma_offset := 0 }
  else if addr = 0xFF44 then
    -- LY is read-only
    m
  else if addr = 0xFF41 then
    -- STAT: lower 3 bits read-only
    m.setData addr ((v &&& 0xF8) ||| (m.data addr &&& 0x07))
  else
    m.setData addr v

/-- Memory::write_byte - address decoding for writes, including the
MBC control registers on the ROM region. -/
def Memory.write_byte (m : Memory) (addr v : Nat) : Memory :=
  if addr ≤ 0x1FFF then
    -- RAM enable
    match m.mbc_type with
    | MbcType.mbc1 | MbcType.mbc3 | MbcType.mbc5 =>
        { m with ram_enabled := (v &&& 0x0F) = 0x0A }
    | MbcType.mbc2 =>
        if addr &&& 0x0100 = 0 then
          { m with ram_enabled := (v &&& 0x0F) = 0x0A }
        else m
    | MbcType.none => m
  else if addr ≤ 0x3FFF then
    -- ROM bank select
    match m.mbc_type with
    | MbcType.mbc1 =>
        let bank := v &&& 0x1F
        let rb := (m.rom_bank &&& 0x60) ||| bank
        { m with rom_bank := if rb = 0 then 1 else rb }
    | MbcType.mbc2 =>
        if addr &&& 0x0100 ≠ 0 then
          let rb := v &&& 0x0F
          { m with rom_bank := if rb = 0 then 1 else rb }
        else m
    | MbcType.mbc3 =>
        let bank := v &&& 0x7F
        { m with rom_bank := if bank = 0 then 1 else bank }
    | MbcType.mbc5 =>
        if addr < 0x3000 then
          { m with rom_bank := (m.rom_bank &&& 0x100) ||| v }
        else
          { m with rom_bank := (m.rom_bank &&& 0xFF) ||| ((v &&& 1) <<< 8) }
    | MbcType.none => m
  else if addr ≤ 0x5FFF then
    -- RAM bank select (or upper ROM bank bits for MBC1 in mode 0)
    match m.mbc_type with
    | MbcType.mbc1 =>
        let m := { m with ram_bank := v &&& 0x03 }
        if m.banking_mode = 0 then
          { m with rom_bank := (m.rom_bank &&& 0x1F) ||| ((v &&& 0x03) <<< 5) }
        else m
    | MbcType.mbc3 => { m with ram_bank := v &&& 0x0F }
    | MbcType.mbc5 => { m with ram_bank := v &&& 0x0F }
    | _ => m
  else if addr ≤ 0x7FFF then
    -- banking mode select (MBC1 only)
    if m.mbc_type = MbcType.mbc1 then
      { m with banking_mode := v &&& 0x01 }
    else m
  else if addr ≤ 0x9FFF then
    -- VRAM
    m.setData addr v
  else if addr ≤ 0xBFFF then
    -- external RAM
    if m.ram_enabled then
      let bank := m.ram_bank
      let offset := bank * 0x2000 + (addr - 0xA000)
      if offset < m.eram.length then
        { m with eram := m.eram.set offset v }
      else m
    else m
  else if addr ≤ 0xDFFF then
    -- work RAM
    m.setData addr v
  else if addr ≤ 0xFDFF then
    -- echo RAM
    m.setData (addr - 0x2000) v
  else if addr ≤ 0xFE9F then
    -- OAM
    m.setData addr v
  else if addr ≤ 0xFEFF then
    -- not usable
    m
  else if addr ≤ 0xFF7F then
    m.write_ioreg addr v
  else if addr ≤ 0xFFFE then
    -- HRAM
    m.setData addr v
  else
    -- IE register
    m.setData addr v

/-- Memory::request_interrupt - set bits in IF (0xFF0F). -/
def Memory.request_interrupt (m : Memory) (interrupt : Nat) : Memory :=
  m.setData 0xFF0F (m.data 0xFF0F ||| interrupt)

/-- Memory::pending_interrupts - IF AND IE AND 0x1F. -/
def Memory.pending_interrupts (m : Memory) : Nat :=
  m.data 0xFF0F &&& m.data 0xFFFF &&& 0x1F

/-- Memory::clear_interrupt - clear bits in IF; the byte complement
of the mask is 255 - interrupt for single-bit byte masks. -/
def Memory.clear_interrupt (m : Memory) (interrupt : Nat) : Memory :=
  m.setData 0xFF0F (m.data 0xFF0F &&& (255 - interrupt))

/-- Memory::tick_dma - one step of an active OAM DMA transfer. -/
def Memory.tick_dma (m : Memory) : Memory :=
  if m.dma_active then
    let src := m.dma_source + m.dma_offset
    let dst := 0xFE00 + m.dma_offset
    let val := m.read_byte src
    let m := m.setData dst val
    let m := { m with dma_offset := m.dma_offset + 1 }
    if 160 ≤ m.dma_offset then { m with dma_active := false } else m
  else m

/-- Memory::set_joypad - latch the button state and request the
joypad interrupt on any high-to-low transition. -/
def Memory.set_joypad (m : Memory) (state : Nat) : Memory :=
  let old_state := m.joypad_state
  let m := { m with joypad_state := state }
  if old_state &&& (255 - state % 256) ≠ 0 then
    m.request_interrupt 0x10
  else m

/-- Well-formedness of a memory state: every stored value is a byte.
This is what the Rust types (u8 arrays and vectors) enforce. -/
def Memory.Wf (m : Memory) : Prop :=
  (∀ i, m.data i < 256) ∧ (∀ b ∈ m.rom, b < 256) ∧
  (∀ b ∈ m.eram, b < 256) ∧ m.joypad_state < 256

/-! ## Timer (timer.rs) -/

/-- Timer state, mirroring struct Timer in timer.rs.  The overflow
state OverflowState (None or Pending n) becomes Option Nat. -/
structure Timer where
  div_counter : Nat
  overflow_state : Option Nat
  pending_tma : Nat

/-- Timer::new. -/
def Timer.new : Timer :=
  { div_counter := 0, overflow_state := none, pending_tma := 0 }

/-- Timer::get_bit_position - counter bit selected by TAC frequency. -/
def Timer.get_bit_position (tac : Nat) : Nat :=
  if tac &&& 0x03 = 0 then 9
  else if tac &&& 0x03 = 1 then 3
  else if tac &&& 0x03 = 2 then 5
  else 7

/-- Timer::timer_clock_high - selected counter bit AND enable bit. -/
def Timer.timer_clock_high (t : Timer) (tac : Nat) : Bool :=
  if tac &&& 0x04 = 0 then false
  else (t.div_counter >>> Timer.get_bit_position tac) &&& 1 != 0

/-- Timer::increment_tima - increment TIMA; on 8-bit overflow set
TIMA to 0 and arm the 4-cycle pending reload. -/
def Timer.increment_tima (t : Timer) (m : Memory) : Timer × Memory :=
  let tima := m.data 0xFF05
  if 255 ≤ tima then
    ({ t with overflow_state := some 4 }, m.setData 0xFF05 0)
  else
    (t, m.setData 0xFF05 (tima + 1))

/-- Timer::tick_single - advance the timer by one T-cycle:
increment the internal counter, publish DIV, process the pending
overflow reload (Pending 1 reloads TIMA from TMA and raises the
timer interrupt, Pending n counts down), then detect a falling edge
of the timer clock. -/
def Timer.tick_single (t : Timer) (m : Memory) : Timer × Memory :=
  let tac := m.data 0xFF07
  let old_clock := t.timer_clock_high tac
  let t := { t with div_counter := (t.div_counter + 1) % 65536 }
  let m := m.setData 0xFF04 ((t.div_counter >>> 8) % 256)
  let tm :=
    match t.overflow_state with
    | some n =>
        if n = 1 then
          ({ t with overflow_state := none },
           (m.setData 0xFF05 (m.data 0xFF06)).request_interrupt 0x04)
        else ({ t with overflow_state := some (n - 1) }, m)
    | none => (t, m)
  let t := tm.1
  let m := tm.2
  let new_clock := t.timer_clock_high tac
  if old_clock && !new_clock then t.increment_tima m else (t, m)

/-- Iterated Timer::tick_single, the loop body of Timer::tick. -/
def Timer.tickN (n : Nat) (t : Timer) (m : Memory) : Timer × Memory :=
  match n with
  | 0 => (t, m)
  | n + 1 =>
      let s := Timer.tickN n t m
      Timer.tick_single s.1 s.2

/-- Timer::write_div - a DIV write resets the internal counter and
the DIV register, and increments TIMA if the clock line was high. -/
def Timer.write_div (t : Timer) (m : Memory) : Timer × Memory :=
  let tac := m.data 0xFF07
  let old_clock := t.timer_clock_high tac
  let t := { t with div_counter := 0 }
  let m := m.setData 0xFF04 0
  if old_clock then t.increment_tima m else (t, m)

/-- Timer::write_tac - a TAC write can produce a falling edge. -/
def Timer.write_tac (t : Timer) (m : Memory) (old_tac new_tac : Nat) :
    Timer × Memory :=
  let old_clock :=
    if old_tac &&& 0x04 ≠ 0 then
      (t.div_counter >>> Timer.get_bit_position old_tac) &&& 1 != 0
    else false
  let new_clock :=
    if new_tac &&& 0x04 ≠ 0 then
      (t.div_counter >>> Timer.get_bit_position new_tac) &&& 1 != 0
    else false
  if old_clock && !new_clock then t.increment_tima m else (t, m)

/-- Timer::write_tima - a TIMA write cancels any pending reload. -/
def Timer.write_tima (t : Timer) (m : Memory) (value : Nat) :
    Timer × Memory :=
  ({ t with overflow_state := none }, m.setData 0xFF05 value)

/-! ## Basic facts about the data array and the timer clock -/

@[simp] theorem Memory.data_setData (m : Memory) (a v i : Nat) :
    (m.setData a v).data i = if i = a then v else m.data i := rfl

theorem bit_stable (d k b : Nat) (h16 : d % 16 = 0) (hk : k ≤ 4)
    (hb : b = 3 ∨ b = 5 ∨ b = 7 ∨ b = 9) :
    ((d + k) >>> b) &&& 1 = (d >>> b) &&& 1 := by
  rcases hb with rfl | rfl | rfl | rfl <;>
    simp only [Nat.shiftRight_eq_div_pow, Nat.and_one_is_mod] <;> norm_num <;> omega

theorem get_bit_position_cases (tac : Nat) :
    Timer.get_bit_position tac = 3 ∨ Timer.get_bit_position tac = 5 ∨
    Timer.get_bit_position tac = 7 ∨ Timer.get_bit_position tac = 9 := by
  unfold Timer.get_bit_position
  split
  · tauto
  · split
    · tauto
    · split <;> tauto

theorem clock_high_congr (t t' : Timer) (tac : Nat)
    (h : t.div_counter = t'.div_counter) :
    t.timer_clock_high tac = t'.timer_clock_high tac := by
  simp only [Timer.timer_clock_high, h]

theorem clock_stable (tac d k : Nat) (os os' : Option Nat) (pt pt' : Nat)
    (h16 : d % 16 = 0) (hk : k ≤ 4) :
    Timer.timer_clock_high ⟨d + k, os, pt⟩ tac =
      Timer.timer_clock_high ⟨d, os', pt'⟩ tac := by
  unfold Timer.timer_clock_high
  split
  · rfl
  · simp only
    rw [bit_stable d k (Timer.get_bit_position tac) h16 hk (get_bit_position_cases tac)]

theorem tick_single_mid (d k pt : Nat) (m : Memory)
    (hk : k ≠ 1)
    (hlt : d + 1 < 65536)
    (hclk : Timer.timer_clock_high ⟨d + 1, some (k - 1), pt⟩ (m.data 0xFF07) =
            Timer.timer_clock_high ⟨d, some k, pt⟩ (m.data 0xFF07)) :
    Timer.tick_single ⟨d, some k, pt⟩ m =
      (⟨d + 1, some (k - 1), pt⟩,
       m.setData 0xFF04 (((d + 1) >>> 8) % 256)) := by
  simp only [Timer.tick_single, Nat.mod_eq_of_lt hlt]
  rw [if_neg hk]
  simp only [hclk]
  simp

theorem tick_single_last (d pt : Nat) (m : Memory)
    (hlt : d + 1 < 65536)
    (hclk : Timer.timer_clock_high ⟨d + 1, none, pt⟩ (m.data 0xFF07) =
            Timer.timer_clock_high ⟨d, some 1, pt⟩ (m.data 0xFF07)) :
    Timer.tick_single ⟨d, some 1, pt⟩ m =
      (⟨d + 1, none, pt⟩,
       ((m.setData 0xFF04 (((d + 1) >>> 8) % 256)).setData 0xFF05
          (m.data 0xFF06)).request_interrupt 0x04) := by
  simp only [Timer.tick_single, reduceIte]
  simp only [Nat.mod_eq_of_lt hlt]
  rw [hclk]
  simp

def timerTestMem : Memory :=
  ((Memory.new.setData 0xFF07 0x05).setData 0xFF05 0xFF).setData 0xFF06 0x42

theorem tima_overflow_reload (t : Timer) (m : Memory)
    (hov : t.overflow_state = some 4)
    (htima : m.data 0xFF05 = 0)
    (hd16 : t.div_counter % 16 = 0)
    (hdlt : t.div_counter < 65536) :
    (∀ k, 1 ≤ k → k ≤ 3 →
       (Timer.tickN k t m).2.data 0xFF05 = 0 ∧
       (Timer.tickN k t m).1.overflow_state = some (4 - k)) ∧
    (Timer.tickN 4 t m).2.data 0xFF05 = m.data 0xFF06 ∧
    Nat.testBit ((Timer.tickN 4 t m).2.data 0xFF0F) 2 = true ∧
    (Timer.tickN 4 t m).1.overflow_state = none ∧
    (Timer.tickN 16 Timer.new timerTestMem).2.data 0xFF05 = 0 ∧
    (Timer.tickN 20 Timer.new timerTestMem).2.data 0xFF05 = 0x42 ∧
    Nat.testBit ((Timer.tickN 20 Timer.new timerTestMem).2.data 0xFF0F) 2 = true := by
  obtain ⟨d, os, pt⟩ := t
  simp only at hov hd16 hdlt
  subst hov
  set m1 := m.setData 0xFF04 (((d + 1) >>> 8) % 256) with hm1
  set m2 := m1.setData 0xFF04 (((d + 2) >>> 8) % 256) with hm2
  set m3 := m2.setData 0xFF04 (((d + 3) >>> 8) % 256) with hm3
  have h1 : Timer.tickN 1 ⟨d, some 4, pt⟩ m = (⟨d + 1, some 3, pt⟩, m1) := by
    exact tick_single_mid d 4 pt m (by omega) (by omega)
      (clock_stable _ d 1 (some 3) (some 4) pt pt hd16 (by omega))
  have h2 : Timer.tickN 2 ⟨d, some 4, pt⟩ m = (⟨d + 2, some 2, pt⟩, m2) := by
    have e : Timer.tickN 2 ⟨d, some 4, pt⟩ m =
        Timer.tick_single (Timer.tickN 1 ⟨d, some 4, pt⟩ m).1
          (Timer.tickN 1 ⟨d, some 4, pt⟩ m).2 := rfl
    rw [e, h1]
    exact tick_single_mid (d + 1) 3 pt m1 (by omega) (by omega)
      ((clock_stable _ d 2 (some 2) (some 4) pt pt hd16 (by omega)).trans
        (clock_stable _ d 1 (some 3) (some 4) pt pt hd16 (by omega)).symm)
  have h3 : Timer.tickN 3 ⟨d, some 4, pt⟩ m = (⟨d + 3, some 1, pt⟩, m3) := by
    have e : Timer.tickN 3 ⟨d, some 4, pt⟩ m =
        Timer.tick_single (Timer.tickN 2 ⟨d, some 4, pt⟩ m).1
          (Timer.tickN 2 ⟨d, some 4, pt⟩ m).2 := rfl
    rw [e, h2]
    exact tick_single_mid (d + 2) 2 pt m2 (by omega) (by omega)
      ((clock_stable _ d 3 (some 1) (some 4) pt pt hd16 (by omega)).trans
        (clock_stable _ d 2 (some 2) (some 4) pt pt hd16 (by omega)).symm)
  have h4 : Timer.tickN 4 ⟨d, some 4, pt⟩ m =
      (⟨d + 4, none, pt⟩,
       ((m3.setData 0xFF04 (((d + 4) >>> 8) % 256)).setData 0xFF05
          (m3.data 0xFF06)).request_interrupt 0x04) := by
    have e : Timer.tickN 4 ⟨d, some 4, pt⟩ m =
        Timer.tick_single (Timer.tickN 3 ⟨d, some 4, pt⟩ m).1
          (Timer.tickN 3 ⟨d, some 4, pt⟩ m).2 := rfl
    rw [e, h3]
    exact tick_single_last (d + 3) pt m3 (by omega)
      ((clock_stable _ d 4 none (some 4) pt pt hd16 (by omega)).trans
        (clock_stable _ d 3 (some 1) (some 4) pt pt hd16 (by omega)).symm)
  refine ⟨?_, ?_, ?_, ?_, by decide, by decide, by decide⟩
  · intro k hk1 hk3
    interval_cases k
    · rw [h1]; simp [hm1, htima]
    · rw [h2]; simp [hm2, hm1, htima]
    · rw [h3]; simp [hm3, hm2, hm1, htima]
  · rw [h4]
    simp [Memory.request_interrupt, hm3, hm2, hm1]
  · rw [h4]
    simp [Memory.request_interrupt, Nat.testBit_or]
    right
    decide
  · rw [h4]

theorem tima_overflow_reload_witness :
    (⟨0, some 4, 0⟩ : Timer).overflow_state = some 4 ∧
    Memory.new.data 0xFF05 = 0 ∧
    (⟨0, some 4, 0⟩ : Timer).div_counter % 16 = 0 ∧
    (⟨0, some 4, 0⟩ : Timer).div_counter < 65536 ∧
    ((∀ k, 1 ≤ k → k ≤ 3 →
       (Timer.tickN k ⟨0, some 4, 0⟩ Memory.new).2.data 0xFF05 = 0 ∧
       (Timer.tickN k ⟨0, some 4, 0⟩ Memory.new).1.overflow_state = some (4 - k)) ∧
    (Timer.tickN 4 ⟨0, some 4, 0⟩ Memory.new).2.data 0xFF05 = Memory.new.data 0xFF06 ∧
    Nat.testBit ((Timer.tickN 4 ⟨0, some 4, 0⟩ Memory.new).2.data 0xFF0F) 2 = true ∧
    (Timer.tickN 4 ⟨0, some 4, 0⟩ Memory.new).1.overflow_state = none ∧
    (Timer.tickN 16 Timer.new timerTestMem).2.data 0xFF05 = 0 ∧
    (Timer.tickN 20 Timer.new timerTestMem).2.data 0xFF05 = 0x42 ∧
    Nat.testBit ((Timer.tickN 20 Timer.new timerTestMem).2.data 0xFF0F) 2 = true) :=
  ⟨rfl, by decide, by decide, by decide,
   tima_overflow_reload ⟨0, some 4, 0⟩ Memory.new rfl (by decide) (by decide) (by decide)⟩

theorem div_write_resets (t : Timer) (m : Memory) :
    (t.write_div m).1.div_counter = 0 ∧
    (t.write_div m).2.data 0xFF04 = 0 ∧
    (if t.timer_clock_high (m.data 0xFF07) then
       (if 255 ≤ m.data 0xFF05 then
          (t.write_div m).2.data 0xFF05 = 0 ∧
          (t.write_div m).1.overflow_state = some 4
        else
          (t.write_div m).2.data 0xFF05 = m.data 0xFF05 + 1 ∧
          (t.write_div m).1.overflow_state = t.overflow_state)
     else
       (t.write_div m).2.data 0xFF05 = m.data 0xFF05 ∧
       (t.write_div m).1.overflow_state = t.overflow_state) := by
  unfold Timer.write_div Timer.increment_tima
  by_cases hc : t.timer_clock_high (m.data 0xFF07)
  · simp only [hc]
    by_cases ho : 255 ≤ m.data 0xFF05
    · simp [ho]
    · simp [ho]
  · simp [hc]


/-! ## Memory claims -/

theorem or_masked_and (a b p q : Nat) (hpq : p &&& q = 0) :
    ((a &&& p) ||| (b &&& q)) &&& p = a &&& p := by
  apply Nat.eq_of_testBit_eq
  intro i
  have h := congrArg (fun x => Nat.testBit x i) hpq
  simp only [Nat.testBit_and, Nat.zero_testBit] at h
  simp only [Nat.testBit_and, Nat.testBit_or]
  cases hp : Nat.testBit p i <;> cases hq : Nat.testBit q i <;> simp_all

theorem or_masked_and_right (a b p q : Nat) (hpq : p &&& q = 0) :
    ((a &&& p) ||| (b &&& q)) &&& q = b &&& q := by
  rw [Nat.lor_comm]
  apply or_masked_and
  rw [Nat.land_comm]
  exact hpq

theorem rom_region_writes_configure_only (m : Memory) (addr v : Nat)
    (h : addr ≤ 0x7FFF) :
    (m.write_byte addr v).data = m.data ∧
    (m.write_byte addr v).rom = m.rom ∧
    (m.write_byte addr v).eram = m.eram ∧
    (m.write_byte addr v).mbc_type = m.mbc_type ∧
    (m.write_byte addr v).joypad_state = m.joypad_state ∧
    (m.write_byte addr v).dma_active = m.dma_active ∧
    (m.write_byte addr v).dma_source = m.dma_source ∧
    (m.write_byte addr v).dma_offset = m.dma_offset := by
  simp only [Memory.write_byte]
  repeat' split
  all_goals exact ⟨rfl, rfl, rfl, rfl, rfl, rfl, rfl, rfl⟩

theorem rom_region_writes_configure_only_witness :
    (0x2100 : Nat) ≤ 0x7FFF ∧
    (Memory.new.write_byte 0x2100 0x42).data = Memory.new.data :=
  ⟨by decide, (rom_region_writes_configure_only Memory.new 0x2100 0x42 (by decide)).1⟩

theorem or_eq_zero_both (a b : Nat) : a ||| b = 0 ↔ a = 0 ∧ b = 0 := by
  constructor
  · intro h
    have hab : ∀ i, a.testBit i = false ∧ b.testBit i = false := by
      intro i
      have hh := congrArg (fun x => Nat.testBit x i) h
      simp only [Nat.testBit_or, Nat.zero_testBit, Bool.or_eq_false_iff] at hh
      exact hh
    refine ⟨Nat.eq_of_testBit_eq fun i => ?_, Nat.eq_of_testBit_eq fun i => ?_⟩
    · rw [(hab i).1, Nat.zero_testBit]
    · rw [(hab i).2, Nat.zero_testBit]
  · rintro ⟨rfl, rfl⟩
    rfl

/-- A memory state with an MBC1 cartridge type. -/
def mbc1Mem : Memory := { Memory.new with mbc_type := MbcType.mbc1 }

/-- The MBC1 state after a write of 0x01 to 0x4000 in banking mode 0:
the ROM bank register becomes 0x21 (upper bits 0x20, low bits 1). -/
def mbc1BankedMem : Memory := mbc1Mem.write_byte 0x4000 0x01

theorem mbc1_rom_bank_select_cex :
    mbc1BankedMem.rom_bank = 0x21 ∧
    (mbc1BankedMem.write_byte 0x2000 0).rom_bank = 0x20 ∧
    ¬ (mbc1BankedMem.write_byte 0x2000 0).rom_bank &&& 0x1F = 1 := by
  refine ⟨by decide, by decide, by decide⟩

theorem mbc1_rom_bank_select (m : Memory) (addr v : Nat)
    (hmbc : m.mbc_type = MbcType.mbc1)
    (h1 : 0x2000 ≤ addr) (h2 : addr ≤ 0x3FFF) :
    ((v &&& 0x1F ≠ 0 ∨ m.rom_bank &&& 0x60 ≠ 0) →
       (m.write_byte addr v).rom_bank = (m.rom_bank &&& 0x60) ||| (v &&& 0x1F)) ∧
    ((v &&& 0x1F = 0 ∧ m.rom_bank &&& 0x60 = 0) →
       (m.write_byte addr v).rom_bank = 1) ∧
    (m.write_byte addr v).rom_bank &&& 0x60 = m.rom_bank &&& 0x60 ∧
    (m.write_byte addr v).rom_bank &&& 0x1F =
      (if v &&& 0x1F = 0 ∧ m.rom_bank &&& 0x60 = 0 then 1 else v &&& 0x1F) := by
  have hor := or_eq_zero_both (m.rom_bank &&& 0x60) (v &&& 0x1F)
  have hwb : (m.write_byte addr v).rom_bank =
      (if (m.rom_bank &&& 0x60) ||| (v &&& 0x1F) = 0 then 1
       else (m.rom_bank &&& 0x60) ||| (v &&& 0x1F)) := by
    simp only [Memory.write_byte]
    rw [if_neg (by omega), if_pos (by omega)]
    rw [hmbc]
  rw [hwb]
  by_cases hz : (m.rom_bank &&& 0x60) ||| (v &&& 0x1F) = 0
  · rw [if_pos hz]
    rw [hor] at hz
    refine ⟨?_, fun _ => rfl, ?_, ?_⟩
    · intro hcase
      rcases hcase with hv | hu
      · exact absurd hz.2 hv
      · exact absurd hz.1 hu
    · rw [hz.1]
      decide
    · rw [if_pos ⟨hz.2, hz.1⟩]
      decide
  · rw [if_neg hz]
    refine ⟨fun _ => rfl, ?_, ?_, ?_⟩
    · rintro ⟨hv, hu⟩
      exact absurd (hor.mpr ⟨hu, hv⟩) hz
    · exact or_masked_and m.rom_bank v 0x60 0x1F (by decide)
    · rw [if_neg (fun hc => hz (hor.mpr ⟨hc.2, hc.1⟩))]
      exact or_masked_and_right m.rom_bank v 0x60 0x1F (by decide)

theorem mbc1_rom_bank_select_witness :
    mbc1Mem.mbc_type = MbcType.mbc1 ∧ (0x2000 : Nat) ≤ 0x2100 ∧ (0x2100 : Nat) ≤ 0x3FFF ∧
    (((0x12 : Nat) &&& 0x1F ≠ 0 ∨ mbc1Mem.rom_bank &&& 0x60 ≠ 0) →
       (mbc1Mem.write_byte 0x2100 0x12).rom_bank =
         (mbc1Mem.rom_bank &&& 0x60) ||| (0x12 &&& 0x1F)) ∧
    (((0x12 : Nat) &&& 0x1F = 0 ∧ mbc1Mem.rom_bank &&& 0x60 = 0) →
       (mbc1Mem.write_byte 0x2100 0x12).rom_bank = 1) ∧
    (mbc1Mem.write_byte 0x2100 0x12).rom_bank &&& 0x60 = mbc1Mem.rom_bank &&& 0x60 ∧
    (mbc1Mem.write_byte 0x2100 0x12).rom_bank &&& 0x1F =
      (if (0x12 : Nat) &&& 0x1F = 0 ∧ mbc1Mem.rom_bank &&& 0x60 = 0 then 1
       else (0x12 : Nat) &&& 0x1F) :=
  ⟨rfl, by decide, by decide,
   (mbc1_rom_bank_select mbc1Mem 0x2100 0x12 rfl (by decide) (by decide))⟩

/-! ## Reads are total and out-of-range banked reads give 0xFF -/

theorem getD_of_length_le (l : List Nat) (n d : Nat) (h : l.length ≤ n) :
    l.getD n d = d := by
  simp [List.getElem?_eq_none h]

theorem getD_lt_256 (l : List Nat) (n d : Nat)
    (hl : ∀ b ∈ l, b < 256) (hd : d < 256) : l.getD n d < 256 := by
  rcases Nat.lt_or_ge n l.length with h | h
  · rw [List.getD_eq_getElem?_getD, List.getElem?_eq_getElem h]
    exact hl _ (List.getElem_mem h)
  · rw [getD_of_length_le l n d h]
    exact hd

theorem read_joypad_lt_256 (m : Memory)
    (h1 : m.data 0xFF00 < 256) : m.read_joypad < 256 := by
  unfold Memory.read_joypad
  have h15 : (15 : Nat) < 2 ^ 8 := by norm_num
  have hsel : m.data 0xFF00 ||| 15 < 2 ^ 8 := Nat.or_lt_two_pow (by simpa using h1) h15
  have hc : (0xC0 : Nat) < 2 ^ 8 := by norm_num
  refine lt_of_lt_of_le (Nat.or_lt_two_pow ?_ hc) (by norm_num)
  split
  · split
    · exact lt_of_le_of_lt (le_trans Nat.and_le_left Nat.and_le_left) hsel
    · exact lt_of_le_of_lt Nat.and_le_left hsel
  · split
    · exact lt_of_le_of_lt Nat.and_le_left hsel
    · exact hsel

theorem read_byte_total (m : Memory) (addr : Nat) :
    (m.Wf → m.read_byte addr < 256) ∧
    (addr ≤ 0x3FFF → ¬(m.mbc_type = MbcType.mbc1 ∧ m.banking_mode = 1) →
       m.rom.length ≤ addr → m.read_byte addr = 0xFF) ∧
    (addr ≤ 0x3FFF → (m.mbc_type = MbcType.mbc1 ∧ m.banking_mode = 1) →
       m.rom.length ≤ (m.ram_bank <<< 5) * 0x4000 + addr →
       m.read_byte addr = 0xFF) ∧
    (0x4000 ≤ addr → addr ≤ 0x7FFF →
       m.rom.length ≤ m.rom_bank * 0x4000 + (addr - 0x4000) →
       m.read_byte addr = 0xFF) ∧
    (0xA000 ≤ addr → addr ≤ 0xBFFF → m.ram_enabled = true →
       m.eram.length ≤ m.ram_bank * 0x2000 + (addr - 0xA000) →
       m.read_byte addr = 0xFF) := by
  refine ⟨?_, ?_, ?_, ?_, ?_⟩
  · intro hw
    obtain ⟨hdata, hrom, heram, hjoy⟩ := hw
    unfold Memory.read_byte
    repeat' split
    all_goals first
      | exact getD_lt_256 _ _ _ hrom (by norm_num)
      | exact getD_lt_256 _ _ _ heram (by norm_num)
      | exact hdata _
      | exact read_joypad_lt_256 m (hdata _)
      | norm_num
  · intro ha hmbc hlen
    unfold Memory.read_byte
    rw [if_pos ha, if_neg hmbc]
    exact getD_of_length_le _ _ _ hlen
  · intro ha hmbc hlen
    unfold Memory.read_byte
    rw [if_pos ha, if_pos hmbc]
    exact getD_of_length_le _ _ _ hlen
  · intro h1 h2 hlen
    unfold Memory.read_byte
    rw [if_neg (by omega), if_pos h2]
    exact getD_of_length_le _ _ _ hlen
  · intro h1 h2 hen hlen
    unfold Memory.read_byte
    rw [if_neg (by omega), if_neg (by omega), if_pos ⟨h1, h2⟩, if_pos hen]
    exact getD_of_length_le _ _ _ hlen

theorem memory_new_wf : Memory.Wf Memory.new := by
  refine ⟨?_, ?_, ?_, by decide⟩
  · intro i
    simp only [Memory.new, Memory.data_setData]
    repeat' split
    all_goals norm_num
  · intro b hb
    have he : Memory.new.rom = [] := rfl
    rw [he] at hb
    exact absurd hb (List.not_mem_nil b)
  · intro b hb
    have he : Memory.new.eram = List.replicate 0x8000 0 := rfl
    rw [he] at hb
    have := List.eq_of_mem_replicate hb
    omega

theorem read_byte_total_witness :
    Memory.new.read_byte 0x1234 = 0xFF ∧
    Memory.new.read_byte 0x5000 = 0xFF ∧
    Memory.new.read_byte 0x8123 < 256 :=
  ⟨(read_byte_total Memory.new 0x1234).2.1 (by decide) (by decide) (by decide),
   (read_byte_total Memory.new 0x5000).2.2.2.1 (by decide) (by decide) (by decide),
   (read_byte_total Memory.new 0x8123).1 memory_new_wf⟩


/-! ## APU (apu.rs)

The Apu structure mirrors struct Apu.  The floating-point audio
output state (buffer, hpf_left, hpf_right) is omitted: it is only
written by sample generation and read by the host, and no integer
channel state depends on it. -/

structure Apu where
  sample_counter : Nat
  frame_counter : Nat
  frame_step : Nat
  enabled : Bool
  ch1_enabled : Bool
  ch1_dac_enabled : Bool
  ch1_length_counter : Nat
  ch1_length_enabled : Bool
  ch1_frequency : Nat
  ch1_timer : Nat
  ch1_duty_position : Nat
  ch1_volume : Nat
  ch1_volume_initial : Nat
  ch1_envelope_timer : Nat
  ch1_envelope_period : Nat
  ch1_envelope_add : Bool
  ch1_sweep_period : Nat
  ch1_sweep_shift : Nat
  ch1_sweep_negate : Bool
  ch1_sweep_timer : Nat
  ch1_sweep_enabled : Bool
  ch1_sweep_shadow : Nat
  ch2_enabled : Bool
  ch2_dac_enabled : Bool
  ch2_length_counter : Nat
  ch2_length_enabled : Bool
  ch2_frequency : Nat
  ch2_timer : Nat
  ch2_duty_position : Nat
  ch2_volume : Nat
  ch2_volume_initial : Nat
  ch2_envelope_timer : Nat
  ch2_envelope_period : Nat
  ch2_envelope_add : Bool
  ch3_enabled : Bool
  ch3_dac_enabled : Bool
  ch3_length_counter : Nat
  ch3_length_enabled : Bool
  ch3_frequency : Nat
  ch3_timer : Nat
  ch3_position : Nat
  ch3_volume_code : Nat
  ch3_sample_buffer : Nat
  ch4_enabled : Bool
  ch4_dac_enabled : Bool
  ch4_length_counter : Nat
  ch4_length_enabled : Bool
  ch4_volume : Nat
  ch4_volume_initial : Nat
  ch4_envelope_timer : Nat
  ch4_envelope_period : Nat
  ch4_envelope_add : Bool
  ch4_timer : Nat
  ch4_lfsr : Nat
  ch4_width_mode : Bool
  ch4_clock_shift : Nat
  ch4_divisor_code : Nat

/-- Apu::new - all counters zero, channel 4 LFSR seeded to 0x7FFF. -/
def Apu.new : Apu :=
  { sample_counter := 0, frame_counter := 0, frame_step := 0
    enabled := false
    ch1_enabled := false, ch1_dac_enabled := false
    ch1_length_counter := 0, ch1_length_enabled := false
    ch1_frequency := 0, ch1_timer := 0, ch1_duty_position := 0
    ch1_volume := 0, ch1_volume_initial := 0
    ch1_envelope_timer := 0, ch1_envelope_period := 0, ch1_envelope_add := false
    ch1_sweep_period := 0, ch1_sweep_shift := 0, ch1_sweep_negate := false
    ch1_sweep_timer := 0, ch1_sweep_enabled := false, ch1_sweep_shadow := 0
    ch2_enabled := false, ch2_dac_enabled := false
    ch2_length_counter := 0, ch2_length_enabled := false
    ch2_frequency := 0, ch2_timer := 0, ch2_duty_position := 0
    ch2_volume := 0, ch2_volume_initial := 0
    ch2_envelope_timer := 0, ch2_envelope_period := 0, ch2_envelope_add := false
    ch3_enabled := false, ch3_dac_enabled := false
    ch3_length_counter := 0, ch3_length_enabled := false
    ch3_frequency := 0, ch3_timer := 0, ch3_position := 0
    ch3_volume_code := 0, ch3_sample_buffer := 0
    ch4_enabled := false, ch4_dac_enabled := false
    ch4_length_counter := 0, ch4_length_enabled := false
    ch4_volume := 0, ch4_volume_initial := 0
    ch4_envelope_timer := 0, ch4_envelope_period := 0, ch4_envelope_add := false
    ch4_timer := 0, ch4_lfsr := 0x7FFF, ch4_width_mode := false
    ch4_clock_shift := 0, ch4_divisor_code := 0 }

/-- Apu::tick_channel4 - decrement the frequency timer; on expiry,
reload it from the divisor and clock shift and step the LFSR:
x = bit0 XOR bit1, shift right, put x into bit 14, and in width
mode overwrite bit 6 with x (the u16 mask NOT (1 shl 6) is
65535 - (1 shl 6)). -/
def Apu.tick_channel4 (a : Apu) : Apu :=
  let timer1 := if 0 < a.ch4_timer then a.ch4_timer - 1 else a.ch4_timer
  if timer1 = 0 then
    let divisor := if a.ch4_divisor_code = 0 then 8 else a.ch4_divisor_code * 16
    let timer2 := divisor <<< a.ch4_clock_shift
    let xor_result := (a.ch4_lfsr &&& 0x01) ^^^ ((a.ch4_lfsr >>> 1) &&& 0x01)
    let shifted := (a.ch4_lfsr >>> 1) ||| (xor_result <<< 14)
    let lfsr2 := if a.ch4_width_mode then
        (shifted &&& (65535 - (1 <<< 6))) ||| (xor_result <<< 6)
      else shifted
    { a with ch4_timer := timer2, ch4_lfsr := lfsr2 }
  else
    { a with ch4_timer := timer1 }

/-- Iterated Apu::tick_channel4. -/
def Apu.tick4N (n : Nat) (a : Apu) : Apu :=
  match n with
  | 0 => a
  | n + 1 => Apu.tick_channel4 (Apu.tick4N n a)

/-- In width mode the LFSR state 0x80 steps to 0: the xor of bits 0
and 1 is 0, the shift leaves only bit 6, and the width-mode bit 6
overwrite clears it.  This refutes the claim for width mode. -/
theorem ch4_lfsr_nonzero_cex :
    ({ Apu.new with ch4_lfsr := 0x80, ch4_width_mode := true } : Apu).ch4_lfsr ≠ 0 ∧
    ({ Apu.new with ch4_lfsr := 0x80, ch4_width_mode := true } : Apu).ch4_width_mode = true ∧
    (Apu.tick4N 1 { Apu.new with ch4_lfsr := 0x80, ch4_width_mode := true }).ch4_lfsr = 0 := by
  refine ⟨by decide, rfl, by decide⟩

theorem ch4_lfsr_step_nonzero_aux (l : Nat) (h0 : l ≠ 0) :
    (l >>> 1) ||| ((l &&& 1 ^^^ l >>> 1 &&& 1) <<< 14) ≠ 0 := by
  intro h
  have hdiv : l >>> 1 = l / 2 := by
    simpa using Nat.shiftRight_eq_div_pow l 1
  rcases (or_eq_zero_both _ _).mp h with ⟨h1, h2⟩
  rw [hdiv] at h1 h2
  have hl : l = 1 := by omega
  rw [hl] at h2
  norm_num [Nat.shiftLeft_eq] at h2

theorem ch4_lfsr_step_nonzero (a : Apu)
    (hw : a.ch4_width_mode = false) (h0 : a.ch4_lfsr ≠ 0) :
    a.tick_channel4.ch4_width_mode = false ∧ a.tick_channel4.ch4_lfsr ≠ 0 := by
  simp only [Apu.tick_channel4, hw]
  split <;> try split
  all_goals
    first
      | exact ⟨rfl, h0⟩
      | exact ⟨rfl, by
          simp only [Bool.false_eq_true, if_false]
          exact ch4_lfsr_step_nonzero_aux a.ch4_lfsr h0⟩

/-- Amended claim: with width mode off, a non-zero channel-4 LFSR
stays non-zero across any number of ticks (whether or not the
frequency timer expires on a tick). -/
theorem ch4_lfsr_nonzero (a : Apu)
    (hw : a.ch4_width_mode = false) (h0 : a.ch4_lfsr ≠ 0) :
    ∀ n, (Apu.tick4N n a).ch4_lfsr ≠ 0 := by
  have main : ∀ n, (Apu.tick4N n a).ch4_width_mode = false ∧
      (Apu.tick4N n a).ch4_lfsr ≠ 0 := by
    intro n
    induction n with
    | zero => exact ⟨hw, h0⟩
    | succ k ih => exact ch4_lfsr_step_nonzero _ ih.1 ih.2
  exact fun n => (main n).2

theorem ch4_lfsr_nonzero_witness :
    Apu.new.ch4_width_mode = false ∧ Apu.new.ch4_lfsr ≠ 0 ∧
    (Apu.tick4N 5 Apu.new).ch4_lfsr ≠ 0 :=
  ⟨rfl, by decide, ch4_lfsr_nonzero Apu.new rfl (by decide) 5⟩


/-! ## CPU state (cpu.rs) and interrupt dispatch (lib.rs) -/

/-- CPU registers and flags, mirroring struct Cpu in cpu.rs. -/
structure Cpu where
  a : Nat
  f : Nat
  b : Nat
  c : Nat
  d : Nat
  e : Nat
  h : Nat
  l : Nat
  sp : Nat
  pc : Nat
  ime : Bool
  ime_pending : Bool
  halted : Bool
  stopped : Bool

/-- Cpu::new - all registers zero. -/
def Cpu.new : Cpu :=
  { a := 0, f := 0, b := 0, c := 0, d := 0, e := 0, h := 0, l := 0
    sp := 0, pc := 0, ime := false, ime_pending := false
    halted := false, stopped := false }

/-- Cpu::reset - DMG post-boot register values. -/
def Cpu.reset : Cpu :=
  { a := 0x01, f := 0xB0, b := 0x00, c := 0x13, d := 0x00, e := 0xD8
    h := 0x01, l := 0x4D, sp := 0xFFFE, pc := 0x0100
    ime := false, ime_pending := false, halted := false, stopped := false }

/-- Emulator::handle_interrupts (lib.rs) - clear halted when any
interrupt is pending; if IME is set and something is pending, push
PC directly into the data array (high byte then low byte, SP
decrementing), dispatch to the vector of the lowest-numbered
pending bit, clear that IF bit, and report 20 T-cycles.  The
sequential Rust field assignments are collected into single record
updates; the two memory writes keep their order and the IF clear
comes last. -/
def handle_interrupts (cpu : Cpu) (m : Memory) : Cpu × Memory × Nat :=
  let pending := m.pending_interrupts
  let halted1 := if pending ≠ 0 then false else cpu.halted
  if cpu.ime = false then ({ cpu with halted := halted1 }, m, 0)
  else if pending = 0 then ({ cpu with halted := halted1 }, m, 0)
  else
    let sp1 := (cpu.sp + 65535) % 65536
    let sp2 := (sp1 + 65535) % 65536
    let m1 := m.setData sp1 ((cpu.pc >>> 8) % 256)
    let m2 := m1.setData sp2 (cpu.pc % 256)
    let pcv :=
      if pending &&& 0x01 ≠ 0 then 0x0040
      else if pending &&& 0x02 ≠ 0 then 0x0048
      else if pending &&& 0x04 ≠ 0 then 0x0050
      else if pending &&& 0x08 ≠ 0 then 0x0058
      else if pending &&& 0x10 ≠ 0 then 0x0060
      else cpu.pc
    let mf :=
      if pending &&& 0x01 ≠ 0 then m2.clear_interrupt 0x01
      else if pending &&& 0x02 ≠ 0 then m2.clear_interrupt 0x02
      else if pending &&& 0x04 ≠ 0 then m2.clear_interrupt 0x04
      else if pending &&& 0x08 ≠ 0 then m2.clear_interrupt 0x08
      else if pending &&& 0x10 ≠ 0 then m2.clear_interrupt 0x10
      else m2
    ({ cpu with ime := false, halted := halted1, sp := sp2, pc := pcv }, mf, 20)

/-- When the stack pointer makes the pushed bytes land on the IF
register (sp = 0xFF11, so sp - 2 = 0xFF0F), the subsequent IF-bit
clear rewrites the pushed low byte of PC: the final memory at sp - 2
is not the low byte of PC.  This refutes the unrestricted claim. -/
theorem handle_interrupts_dispatch_cex :
    ({ Cpu.new with ime := true, sp := 0xFF11, pc := 0x00FF } : Cpu).ime = true ∧
    ((Memory.new.setData 0xFF0F 1).setData 0xFFFF 1).pending_interrupts ≠ 0 ∧
    (0xFF11 + 65534) % 65536 = 0xFF0F ∧
    ({ Cpu.new with ime := true, sp := 0xFF11, pc := 0x00FF } : Cpu).pc % 256 = 0xFF ∧
    (handle_interrupts { Cpu.new with ime := true, sp := 0xFF11, pc := 0x00FF }
        ((Memory.new.setData 0xFF0F 1).setData 0xFFFF 1)).2.1.data 0xFF0F ≠ 0xFF := by
  refine ⟨rfl, by decide, by decide, by decide, by decide⟩

theorem and_single_bit_zero {p w i : Nat} (hw : w = 2 ^ i) (hz : p &&& w = 0) :
    p.testBit i = false := by
  have hh := congrArg (fun x => Nat.testBit x i) hz
  simp only [Nat.testBit_and, hw, Nat.testBit_two_pow_self, Bool.and_true,
    Nat.zero_testBit] at hh
  exact hh

theorem pending_all_bits_clear (p : Nat) (hp : p < 32)
    (h0 : p &&& 1 = 0) (h1 : p &&& 2 = 0) (h2 : p &&& 4 = 0)
    (h3 : p &&& 8 = 0) (h4 : p &&& 16 = 0) : p = 0 := by
  apply Nat.eq_of_testBit_eq
  intro i
  rw [Nat.zero_testBit]
  by_cases hi : i < 5
  · interval_cases i
    · exact and_single_bit_zero (by norm_num) h0
    · exact and_single_bit_zero (by norm_num) h1
    · exact and_single_bit_zero (by norm_num) h2
    · exact and_single_bit_zero (by norm_num) h3
    · exact and_single_bit_zero (by norm_num) h4
  · refine Nat.testBit_lt_two_pow (lt_of_lt_of_le hp ?_)
    calc (32 : Nat) = 2 ^ 5 := by norm_num
    _ ≤ 2 ^ i := Nat.pow_le_pow_right (by norm_num) (by omega)

theorem pending_lt_32 (m : Memory) : m.pending_interrupts < 32 :=
  lt_of_le_of_lt Nat.and_le_right (by norm_num)

theorem handle_interrupts_dispatch (c : Cpu) (m : Memory) :
    (c.ime = true → m.pending_interrupts ≠ 0 →
      (c.sp + 65535) % 65536 ≠ 0xFF0F →
      (c.sp + 65534) % 65536 ≠ 0xFF0F →
      ((handle_interrupts c m).2.2 = 20 ∧
       (handle_interrupts c m).1.ime = false ∧
       (handle_interrupts c m).1.halted = false ∧
       (handle_interrupts c m).1.sp = (c.sp + 65534) % 65536 ∧
       (handle_interrupts c m).1.a = c.a ∧
       (handle_interrupts c m).1.f = c.f ∧
       (handle_interrupts c m).2.1.data ((c.sp + 65535) % 65536) =
         (c.pc >>> 8) % 256 ∧
       (handle_interrupts c m).2.1.data ((c.sp + 65534) % 65536) = c.pc % 256 ∧
       (if m.pending_interrupts &&& 0x01 ≠ 0 then
          (handle_interrupts c m).1.pc = 0x0040 ∧
          (handle_interrupts c m).2.1.data 0xFF0F = m.data 0xFF0F &&& 254
        else if m.pending_interrupts &&& 0x02 ≠ 0 then
          (handle_interrupts c m).1.pc = 0x0048 ∧
          (handle_interrupts c m).2.1.data 0xFF0F = m.data 0xFF0F &&& 253
        else if m.pending_interrupts &&& 0x04 ≠ 0 then
          (handle_interrupts c m).1.pc = 0x0050 ∧
          (handle_interrupts c m).2.1.data 0xFF0F = m.data 0xFF0F &&& 251
        else if m.pending_interrupts &&& 0x08 ≠ 0 then
          (handle_interrupts c m).1.pc = 0x0058 ∧
          (handle_interrupts c m).2.1.data 0xFF0F = m.data 0xFF0F &&& 247
        else
          (handle_interrupts c m).1.pc = 0x0060 ∧
          (handle_interrupts c m).2.1.data 0xFF0F = m.data 0xFF0F &&& 239))) ∧
    (c.ime = false →
      ((handle_interrupts c m).2.2 = 0 ∧
       (handle_interrupts c m).2.1 = m ∧
       (handle_interrupts c m).1 =
         { c with halted := if m.pending_interrupts ≠ 0 then false else c.halted })) := by
  have hsp2e : ((c.sp + 65535) % 65536 + 65535) % 65536 = (c.sp + 65534) % 65536 := by
    omega
  constructor
  · intro hime hpend hsp1 hsp2
    have hss : (c.sp + 65535) % 65536 ≠ (c.sp + 65534) % 65536 := by omega
    by_cases h1 : m.pending_interrupts &&& 0x01 ≠ 0
    · have h1m : m.pending_interrupts % 2 = 1 := by
        have hx := h1
        rw [Nat.and_one_is_mod] at hx
        omega
      simp [handle_interrupts, hime, hpend, h1, h1m, hsp2e, Memory.clear_interrupt,
        hsp1, hsp2, Ne.symm hsp1, Ne.symm hsp2, hss, Ne.symm hss]
    · have h1m : m.pending_interrupts % 2 = 0 := by
        have hx : m.pending_interrupts &&& 1 = 0 := by omega
        rw [Nat.and_one_is_mod] at hx
        exact hx
      by_cases h2 : m.pending_interrupts &&& 0x02 ≠ 0
      · simp [handle_interrupts, hime, hpend, h1, h1m, h2, hsp2e,
          Memory.clear_interrupt, hsp1, hsp2, Ne.symm hsp1, Ne.symm hsp2, hss,
          Ne.symm hss]
      · by_cases h4 : m.pending_interrupts &&& 0x04 ≠ 0
        · simp [handle_interrupts, hime, hpend, h1, h1m, h2, h4, hsp2e,
            Memory.clear_interrupt, hsp1, hsp2, Ne.symm hsp1, Ne.symm hsp2, hss,
            Ne.symm hss]
        · by_cases h8 : m.pending_interrupts &&& 0x08 ≠ 0
          · simp [handle_interrupts, hime, hpend, h1, h1m, h2, h4, h8, hsp2e,
              Memory.clear_interrupt, hsp1, hsp2, Ne.symm hsp1, Ne.symm hsp2, hss,
              Ne.symm hss]
          · have h16 : m.pending_interrupts &&& 0x10 ≠ 0 := by
              intro h16z
              exact hpend (pending_all_bits_clear _ (pending_lt_32 m)
                (by omega) (by omega) (by omega) (by omega) h16z)
            simp [handle_interrupts, hime, hpend, h1, h1m, h2, h4, h8, h16, hsp2e,
              Memory.clear_interrupt, hsp1, hsp2, Ne.symm hsp1, Ne.symm hsp2, hss,
              Ne.symm hss]
  · intro hime
    by_cases hp : m.pending_interrupts ≠ 0
    · simp [handle_interrupts, hime, hp]
    · simp [handle_interrupts, hime, hp]

theorem handle_interrupts_dispatch_witness :
    (handle_interrupts { Cpu.new with ime := true, sp := 0xFFFE, pc := 0x1234 }
       ((Memory.new.setData 0xFF0F 4).setData 0xFFFF 4)).2.2 = 20 :=
  ((handle_interrupts_dispatch { Cpu.new with ime := true, sp := 0xFFFE, pc := 0x1234 }
      ((Memory.new.setData 0xFF0F 4).setData 0xFFFF 4)).1
    rfl (by decide) (by decide) (by decide)).1


/-! ## CPU helpers and instruction execution (cpu.rs)

Machine-integer conventions: u8 wrapping addition is mod 256, u8
wrapping subtraction a - b is (a + 256 - b % 256) mod 256, u8 shl
wraps mod 256, the u8 complement of x is 255 - x (applied to byte
values), u16 arithmetic is mod 65536, and the i8-to-u16 sign
extension of a byte adds 0xFF00 to values of 128 and above. -/

/-- Wrapping u8 subtraction. -/
def wsub8 (a b : Nat) : Nat := (a + 256 - b % 256) % 256

/-- Sign extension of a byte to 16 bits (as i8 as i16 as u16). -/
def sext8 (v : Nat) : Nat := if 128 ≤ v % 256 then v % 256 + 0xFF00 else v % 256

/-- Cpu::flag_z. -/
def Cpu.flag_z (cpu : Cpu) : Bool := cpu.f &&& 0x80 != 0
/-- Cpu::flag_n. -/
def Cpu.flag_n (cpu : Cpu) : Bool := cpu.f &&& 0x40 != 0
/-- Cpu::flag_h. -/
def Cpu.flag_h (cpu : Cpu) : Bool := cpu.f &&& 0x20 != 0
/-- Cpu::flag_c. -/
def Cpu.flag_c (cpu : Cpu) : Bool := cpu.f &&& 0x10 != 0

/-- Cpu::set_flag - set or clear one flag bit in F. -/
def Cpu.set_flag (cpu : Cpu) (flag : Nat) (value : Bool) : Cpu :=
  if value then { cpu with f := cpu.f ||| flag }
  else { cpu with f := cpu.f &&& (255 - flag) }

/-- Cpu::set_flags - rebuild F from the four flag values (the low
nibble is always zero). -/
def Cpu.set_flags (cpu : Cpu) (z n h c : Bool) : Cpu :=
  { cpu with f :=
      (if z then 0x80 else 0) ||| (if n then 0x40 else 0) |||
      (if h then 0x20 else 0) ||| (if c then 0x10 else 0) }

/-- Cpu::af. -/
def Cpu.af (cpu : Cpu) : Nat := (cpu.a <<< 8) ||| cpu.f
/-- Cpu::set_af - the low nibble of F is masked to zero. -/
def Cpu.set_af (cpu : Cpu) (val : Nat) : Cpu :=
  { cpu with a := (val >>> 8) % 256, f := val &&& 0xF0 }
/-- Cpu::bc. -/
def Cpu.bc (cpu : Cpu) : Nat := (cpu.b <<< 8) ||| cpu.c
/-- Cpu::set_bc. -/
def Cpu.set_bc (cpu : Cpu) (val : Nat) : Cpu :=
  { cpu with b := (val >>> 8) % 256, c := val % 256 }
/-- Cpu::de. -/
def Cpu.de (cpu : Cpu) : Nat := (cpu.d <<< 8) ||| cpu.e
/-- Cpu::set_de. -/
def Cpu.set_de (cpu : Cpu) (val : Nat) : Cpu :=
  { cpu with d := (val >>> 8) % 256, e := val % 256 }
/-- Cpu::hl. -/
def Cpu.hl (cpu : Cpu) : Nat := (cpu.h <<< 8) ||| cpu.l
/-- Cpu::set_hl. -/
def Cpu.set_hl (cpu : Cpu) (val : Nat) : Cpu :=
  { cpu with h := (val >>> 8) % 256, l := val % 256 }

/-- Cpu::fetch_byte - read at PC and advance PC. -/
def Cpu.fetch_byte (cpu : Cpu) (m : Memory) : Nat × Cpu :=
  (m.read_byte cpu.pc, { cpu with pc := (cpu.pc + 1) % 65536 })

/-- Cpu::fetch_word - low byte first. -/
def Cpu.fetch_word (cpu : Cpu) (m : Memory) : Nat × Cpu :=
  let r1 := cpu.fetch_byte m
  let r2 := r1.2.fetch_byte m
  ((r2.1 <<< 8) ||| r1.1, r2.2)

/-- Cpu::push - high byte first, SP decrementing, through
Memory::write_byte. -/
def Cpu.push (cpu : Cpu) (m : Memory) (val : Nat) : Cpu × Memory :=
  let cpu := { cpu with sp := (cpu.sp + 65535) % 65536 }
  let m := m.write_byte cpu.sp ((val >>> 8) % 256)
  let cpu := { cpu with sp := (cpu.sp + 65535) % 65536 }
  let m := m.write_byte cpu.sp (val % 256)
  (cpu, m)

/-- Cpu::pop - low byte first, SP incrementing. -/
def Cpu.pop (cpu : Cpu) (m : Memory) : Nat × Cpu :=
  let lo := m.read_byte cpu.sp
  let cpu := { cpu with sp := (cpu.sp + 1) % 65536 }
  let hi := m.read_byte cpu.sp
  let cpu := { cpu with sp := (cpu.sp + 1) % 65536 }
  ((hi <<< 8) ||| lo, cpu)

/-- Cpu::alu_add. -/
def Cpu.alu_add (cpu : Cpu) (val : Nat) : Cpu :=
  let a := cpu.a
  let result := (a + val) % 256
  let cpu := cpu.set_flags (result = 0) false
    ((a &&& 0x0F) + (val &&& 0x0F) > 0x0F) (a + val > 0xFF)
  { cpu with a := result }

/-- Cpu::alu_adc. -/
def Cpu.alu_adc (cpu : Cpu) (val : Nat) : Cpu :=
  let a := cpu.a
  let c := if cpu.flag_c then 1 else 0
  let result := (a + val + c) % 256
  let cpu := cpu.set_flags (result = 0) false
    ((a &&& 0x0F) + (val &&& 0x0F) + c > 0x0F) (a + val + c > 0xFF)
  { cpu with a := result }

/-- Cpu::alu_sub. -/
def Cpu.alu_sub (cpu : Cpu) (val : Nat) : Cpu :=
  let a := cpu.a
  let result := wsub8 a val
  let cpu := cpu.set_flags (result = 0) true
    ((a &&& 0x0F) < (val &&& 0x0F)) (a < val)
  { cpu with a := result }

/-- Cpu::alu_sbc. -/
def Cpu.alu_sbc (cpu : Cpu) (val : Nat) : Cpu :=
  let a := cpu.a
  let c := if cpu.flag_c then 1 else 0
  let result := wsub8 (wsub8 a val) c
  let cpu := cpu.set_flags (result = 0) true
    ((a &&& 0x0F) < (val &&& 0x0F) + c) (a < val + c)
  { cpu with a := result }

/-- Cpu::alu_and. -/
def Cpu.alu_and (cpu : Cpu) (val : Nat) : Cpu :=
  let cpu := { cpu with a := cpu.a &&& val }
  cpu.set_flags (cpu.a = 0) false true false

/-- Cpu::alu_xor. -/
def Cpu.alu_xor (cpu : Cpu) (val : Nat) : Cpu :=
  let cpu := { cpu with a := cpu.a ^^^ val }
  cpu.set_flags (cpu.a = 0) false false false

/-- Cpu::alu_or. -/
def Cpu.alu_or (cpu : Cpu) (val : Nat) : Cpu :=
  let cpu := { cpu with a := cpu.a ||| val }
  cpu.set_flags (cpu.a = 0) false false false

/-- Cpu::alu_cp. -/
def Cpu.alu_cp (cpu : Cpu) (val : Nat) : Cpu :=
  let a := cpu.a
  cpu.set_flags (a = val) true ((a &&& 0x0F) < (val &&& 0x0F)) (a < val)

/-- Cpu::alu_inc - returns the flag-updated CPU and the result. -/
def Cpu.alu_inc (cpu : Cpu) (val : Nat) : Cpu × Nat :=
  let result := (val + 1) % 256
  let cpu := cpu.set_flag 0x80 (result = 0)
  let cpu := cpu.set_flag 0x40 false
  let cpu := cpu.set_flag 0x20 ((val &&& 0x0F) + 1 > 0x0F)
  (cpu, result)

/-- Cpu::alu_dec. -/
def Cpu.alu_dec (cpu : Cpu) (val : Nat) : Cpu × Nat :=
  let result := wsub8 val 1
  let cpu := cpu.set_flag 0x80 (result = 0)
  let cpu := cpu.set_flag 0x40 true
  let cpu := cpu.set_flag 0x20 ((val &&& 0x0F) = 0)
  (cpu, result)

/-- Cpu::alu_add_hl. -/
def Cpu.alu_add_hl (cpu : Cpu) (val : Nat) : Cpu :=
  let hl := cpu.hl
  let result := (hl + val) % 65536
  let cpu := cpu.set_flag 0x40 false
  let cpu := cpu.set_flag 0x20 ((hl &&& 0x0FFF) + (val &&& 0x0FFF) > 0x0FFF)
  let cpu := cpu.set_flag 0x10 (0xFFFF - val < hl)
  cpu.set_hl result

/-- Cpu::alu_add_sp - takes the fetched offset byte; the i8 cast is
the sign extension sext8. -/
def Cpu.alu_add_sp (cpu : Cpu) (val : Nat) : Cpu × Nat :=
  let sp := cpu.sp
  let val_u := sext8 val
  let result := (sp + val_u) % 65536
  let cpu := cpu.set_flags false false
    ((sp &&& 0x0F) + (val_u &&& 0x0F) > 0x0F)
    ((sp &&& 0xFF) + (val_u &&& 0xFF) > 0xFF)
  (cpu, result)

/-- Cpu::alu_rlc. -/
def Cpu.alu_rlc (cpu : Cpu) (val : Nat) : Cpu × Nat :=
  let carry := val >>> 7
  let result := ((val <<< 1) % 256) ||| carry
  (cpu.set_flags (result = 0) false false (carry ≠ 0), result)

/-- Cpu::alu_rrc. -/
def Cpu.alu_rrc (cpu : Cpu) (val : Nat) : Cpu × Nat :=
  let carry := val &&& 1
  let result := (val >>> 1) ||| (carry <<< 7)
  (cpu.set_flags (result = 0) false false (carry ≠ 0), result)

/-- Cpu::alu_rl. -/
def Cpu.alu_rl (cpu : Cpu) (val : Nat) : Cpu × Nat :=
  let old_carry := if cpu.flag_c then 1 else 0
  let new_carry := val >>> 7
  let result := ((val <<< 1) % 256) ||| old_carry
  (cpu.set_flags (result = 0) false false (new_carry ≠ 0), result)

/-- Cpu::alu_rr. -/
def Cpu.alu_rr (cpu : Cpu) (val : Nat) : Cpu × Nat :=
  let old_carry := if cpu.flag_c then 1 else 0
  let new_carry := val &&& 1
  let result := (val >>> 1) ||| (old_carry <<< 7)
  (cpu.set_flags (result = 0) false false (new_carry ≠ 0), result)

/-- Cpu::alu_sla. -/
def Cpu.alu_sla (cpu : Cpu) (val : Nat) : Cpu × Nat :=
  let carry := val >>> 7
  let result := (val <<< 1) % 256
  (cpu.set_flags (result = 0) false false (carry ≠ 0), result)

/-- Cpu::alu_sra. -/
def Cpu.alu_sra (cpu : Cpu) (val : Nat) : Cpu × Nat :=
  let carry := val &&& 1
  let result := (val >>> 1) ||| (val &&& 0x80)
  (cpu.set_flags (result = 0) false false (carry ≠ 0), result)

/-- Cpu::alu_swap. -/
def Cpu.alu_swap (cpu : Cpu) (val : Nat) : Cpu × Nat :=
  let result := (val >>> 4) ||| ((val <<< 4) % 256)
  (cpu.set_flags (result = 0) false false false, result)

/-- Cpu::alu_srl. -/
def Cpu.alu_srl (cpu : Cpu) (val : Nat) : Cpu × Nat :=
  let carry := val &&& 1
  let result := val >>> 1
  (cpu.set_flags (result = 0) false false (carry ≠ 0), result)

/-- Cpu::alu_bit. -/
def Cpu.alu_bit (cpu : Cpu) (bit val : Nat) : Cpu :=
  let result := val &&& (1 <<< bit)
  let cpu := cpu.set_flag 0x80 (result = 0)
  let cpu := cpu.set_flag 0x40 false
  cpu.set_flag 0x20 true

/-- Cpu::alu_res. -/
def Cpu.alu_res (bit val : Nat) : Nat := val &&& (255 - ((1 <<< bit) % 256))

/-- Cpu::alu_set. -/
def Cpu.alu_set (bit val : Nat) : Nat := val ||| (1 <<< bit)

/-- Cpu::alu_daa. -/
def Cpu.alu_daa (cpu : Cpu) : Cpu :=
  let a := cpu.a
  let adjust := if cpu.flag_h || (!cpu.flag_n && (a &&& 0x0F) > 9)
    then 0x06 else 0
  let carry := cpu.flag_c || (!cpu.flag_n && a > 0x99)
  let adjust := if carry then adjust ||| 0x60 else adjust
  let cpu := if carry then cpu.set_flag 0x10 true else cpu
  let a := if cpu.flag_n then wsub8 a adjust else (a + adjust) % 256
  let cpu := cpu.set_flag 0x80 (a = 0)
  let cpu := cpu.set_flag 0x20 false
  { cpu with a := a }

/-- The index-selected register read of execute_cb (the closure
get_reg; index 7 is register A and covers the unreachable default). -/
def Cpu.get_reg (cpu : Cpu) (m : Memory) (idx : Nat) : Nat :=
  if idx = 0 then cpu.b
  else if idx = 1 then cpu.c
  else if idx = 2 then cpu.d
  else if idx = 3 then cpu.e
  else if idx = 4 then cpu.h
  else if idx = 5 then cpu.l
  else if idx = 6 then m.read_byte cpu.hl
  else cpu.a

/-- The index-selected register write of execute_cb (the closure
set_reg). -/
def Cpu.set_reg (cpu : Cpu) (m : Memory) (idx val : Nat) : Cpu × Memory :=
  if idx = 0 then ({ cpu with b := val }, m)
  else if idx = 1 then ({ cpu with c := val }, m)
  else if idx = 2 then ({ cpu with d := val }, m)
  else if idx = 3 then ({ cpu with e := val }, m)
  else if idx = 4 then ({ cpu with h := val }, m)
  else if idx = 5 then ({ cpu with l := val }, m)
  else if idx = 6 then (cpu, m.write_byte cpu.hl val)
  else ({ cpu with a := val }, m)

/-- The range dispatch of Cpu::execute_cb on the fetched CB opcode
(rotates and shifts, SWAP, BIT, RES, SET). -/
def Cpu.execute_cb_op (cpu : Cpu) (m : Memory) (opcode : Nat) :
    Cpu × Memory × Nat :=
  let reg_idx := opcode &&& 0x07
  let base_cycles := if reg_idx = 6 then 16 else 8
  if opcode ≤ 0x07 then
    let r := cpu.alu_rlc (cpu.get_reg m reg_idx)
    let sm := r.1.set_reg m reg_idx r.2
    (sm.1, sm.2, base_cycles)
  else if opcode ≤ 0x0F then
    let r := cpu.alu_rrc (cpu.get_reg m reg_idx)
    let sm := r.1.set_reg m reg_idx r.2
    (sm.1, sm.2, base_cycles)
  else if opcode ≤ 0x17 then
    let r := cpu.alu_rl (cpu.get_reg m reg_idx)
    let sm := r.1.set_reg m reg_idx r.2
    (sm.1, sm.2, base_cycles)
  else if opcode ≤ 0x1F then
    let r := cpu.alu_rr (cpu.get_reg m reg_idx)
    let sm := r.1.set_reg m reg_idx r.2
    (sm.1, sm.2, base_cycles)
  else if opcode ≤ 0x27 then
    let r := cpu.alu_sla (cpu.get_reg m reg_idx)
    let sm := r.1.set_reg m reg_idx r.2
    (sm.1, sm.2, base_cycles)
  else if opcode ≤ 0x2F then
    let r := cpu.alu_sra (cpu.get_reg m reg_idx)
    let sm := r.1.set_reg m reg_idx r.2
    (sm.1, sm.2, base_cycles)
  else if opcode ≤ 0x37 then
    let r := cpu.alu_swap (cpu.get_reg m reg_idx)
    let sm := r.1.set_reg m reg_idx r.2
    (sm.1, sm.2, base_cycles)
  else if opcode ≤ 0x3F then
    let r := cpu.alu_srl (cpu.get_reg m reg_idx)
    let sm := r.1.set_reg m reg_idx r.2
    (sm.1, sm.2, base_cycles)
  else if opcode ≤ 0x7F then
    let bit := (opcode >>> 3) &&& 0x07
    let cpu := cpu.alu_bit bit (cpu.get_reg m reg_idx)
    (cpu, m, if reg_idx = 6 then 12 else 8)
  else if opcode ≤ 0xBF then
    let bit := (opcode >>> 3) &&& 0x07
    let result := Cpu.alu_res bit (cpu.get_reg m reg_idx)
    let sm := cpu.set_reg m reg_idx result
    (sm.1, sm.2, base_cycles)
  else
    let bit := (opcode >>> 3) &&& 0x07
    let result := Cpu.alu_set bit (cpu.get_reg m reg_idx)
    let sm := cpu.set_reg m reg_idx result
    (sm.1, sm.2, base_cycles)

/-- Cpu::execute_cb - fetch the CB opcode and dispatch. -/
def Cpu.execute_cb (cpu : Cpu) (m : Memory) : Cpu × Memory × Nat :=
  let r0 := cpu.fetch_byte m
  r0.2.execute_cb_op m r0.1

/-- Opcodes 0x00-0x0F of the Cpu::step dispatch. -/
def Cpu.exec0 (cpu : Cpu) (m : Memory) (opcode : Nat) :
    Except String (Cpu × Memory × Nat) :=
  match opcode with
  | 0x00 => Except.ok (cpu, m, 4) -- NOP
  | 0x01 => -- LD BC, d16
      let r := cpu.fetch_word m
      Except.ok (r.2.set_bc r.1, m, 12)
  | 0x02 => Except.ok (cpu, m.write_byte cpu.bc cpu.a, 8) -- LD (BC), A
  | 0x03 => Except.ok (cpu.set_bc ((cpu.bc + 1) % 65536), m, 8) -- INC BC
  | 0x04 => -- INC B
      let r := cpu.alu_inc cpu.b
      Except.ok ({ r.1 with b := r.2 }, m, 4)
  | 0x05 => -- DEC B
      let r := cpu.alu_dec cpu.b
      Except.ok ({ r.1 with b := r.2 }, m, 4)
  | 0x06 => -- LD B, d8
      let r := cpu.fetch_byte m
      Except.ok ({ r.2 with b := r.1 }, m, 8)
  | 0x07 => -- RLCA
      let carry := cpu.a >>> 7
      let cpu := { cpu with a := ((cpu.a <<< 1) % 256) ||| carry }
      Except.ok (cpu.set_flags false false false (carry ≠ 0), m, 4)
  | 0x08 => -- LD (a16), SP
      let r := cpu.fetch_word m
      let m := m.write_byte r.1 (r.2.sp % 256)
      let m := m.write_byte ((r.1 + 1) % 65536) ((r.2.sp >>> 8) % 256)
      Except.ok (r.2, m, 20)
  | 0x09 => Except.ok (cpu.alu_add_hl cpu.bc, m, 8) -- ADD HL, BC
  | 0x0A => Except.ok ({ cpu with a := m.read_byte cpu.bc }, m, 8) -- LD A, (BC)
  | 0x0B => Except.ok (cpu.set_bc ((cpu.bc + 65535) % 65536), m, 8) -- DEC BC
  | 0x0C => -- INC C
      let r := cpu.alu_inc cpu.c
      Except.ok ({ r.1 with c := r.2 }, m, 4)
  | 0x0D => -- DEC C
      let r := cpu.alu_dec cpu.c
      Except.ok ({ r.1 with c := r.2 }, m, 4)
  | 0x0E => -- LD C, d8
      let r := cpu.fetch_byte m
      Except.ok ({ r.2 with c := r.1 }, m, 8)
  | 0x0F => -- RRCA
      let carry := cpu.a &&& 1
      let cpu := { cpu with a := (cpu.a >>> 1) ||| (carry <<< 7) }
      Except.ok (cpu.set_flags false false false (carry ≠ 0), m, 4)
  | _ => Except.error "invalid opcode byte"

/-- Opcodes 0x10-0x1F of the Cpu::step dispatch. -/
def Cpu.exec1 (cpu : Cpu) (m : Memory) (opcode : Nat) :
    Except String (Cpu × Memory × Nat) :=
  match opcode with
  | 0x10 => Except.ok ({ cpu with pc := (cpu.pc + 1) % 65536, stopped := true }, m, 4) -- STOP
  | 0x11 => -- LD DE, d16
      let r := cpu.fetch_word m
      Except.ok (r.2.set_de r.1, m, 12)
  | 0x12 => Except.ok (cpu, m.write_byte cpu.de cpu.a, 8) -- LD (DE), A
  | 0x13 => Except.ok (cpu.set_de ((cpu.de + 1) % 65536), m, 8) -- INC DE
  | 0x14 => -- INC D
      let r := cpu.alu_inc cpu.d
      Except.ok ({ r.1 with d := r.2 }, m, 4)
  | 0x15 => -- DEC D
      let r := cpu.alu_dec cpu.d
      Except.ok ({ r.1 with d := r.2 }, m, 4)
  | 0x16 => -- LD D, d8
      let r := cpu.fetch_byte m
      Except.ok ({ r.2 with d := r.1 }, m, 8)
  | 0x17 => -- RLA
      let old_carry := if cpu.flag_c then 1 else 0
      let new_carry := cpu.a >>> 7
      let cpu := { cpu with a := ((cpu.a <<< 1) % 256) ||| old_carry }
      Except.ok (cpu.set_flags false false false (new_carry ≠ 0), m, 4)
  | 0x18 => -- JR r8
      let r := cpu.fetch_byte m
      Except.ok ({ r.2 with pc := (r.2.pc + sext8 r.1) % 65536 }, m, 12)
  | 0x19 => Except.ok (cpu.alu_add_hl cpu.de, m, 8) -- ADD HL, DE
  | 0x1A => Except.ok ({ cpu with a := m.read_byte cpu.de }, m, 8) -- LD A, (DE)
  | 0x1B => Except.ok (cpu.set_de ((cpu.de + 65535) % 65536), m, 8) -- DEC DE
  | 0x1C => -- INC E
      let r := cpu.alu_inc cpu.e
      Except.ok ({ r.1 with e := r.2 }, m, 4)
  | 0x1D => -- DEC E
      let r := cpu.alu_dec cpu.e
      Except.ok ({ r.1 with e := r.2 }, m, 4)
  | 0x1E => -- LD E, d8
      let r := cpu.fetch_byte m
      Except.ok ({ r.2 with e := r.1 }, m, 8)
  | 0x1F => -- RRA
      let old_carry := if cpu.flag_c then 1 else 0
      let new_carry := cpu.a &&& 1
      let cpu := { cpu with a := (cpu.a >>> 1) ||| (old_carry <<< 7) }
      Except.ok (cpu.set_flags false false false (new_carry ≠ 0), m, 4)
  | _ => Except.error "invalid opcode byte"

/-- Opcodes 0x20-0x2F of the Cpu::step dispatch. -/
def Cpu.exec2 (cpu : Cpu) (m : Memory) (opcode : Nat) :
    Except String (Cpu × Memory × Nat) :=
  match opcode with
  | 0x20 => -- JR NZ, r8
      let r := cpu.fetch_byte m
      if !r.2.flag_z then
        Except.ok ({ r.2 with pc := (r.2.pc + sext8 r.1) % 65536 }, m, 12)
      else Except.ok (r.2, m, 8)
  | 0x21 => -- LD HL, d16
      let r := cpu.fetch_word m
      Except.ok (r.2.set_hl r.1, m, 12)
  | 0x22 => Except.ok (cpu.set_hl ((cpu.hl + 1) % 65536), m.write_byte cpu.hl cpu.a, 8) -- LD (HL+), A
  | 0x23 => Except.ok (cpu.set_hl ((cpu.hl + 1) % 65536), m, 8) -- INC HL
  | 0x24 => -- INC H
      let r := cpu.alu_inc cpu.h
      Except.ok ({ r.1 with h := r.2 }, m, 4)
  | 0x25 => -- DEC H
      let r := cpu.alu_dec cpu.h
      Except.ok ({ r.1 with h := r.2 }, m, 4)
  | 0x26 => -- LD H, d8
      let r := cpu.fetch_byte m
      Except.ok ({ r.2 with h := r.1 }, m, 8)
  | 0x27 => Except.ok (cpu.alu_daa, m, 4) -- DAA
  | 0x28 => -- JR Z, r8
      let r := cpu.fetch_byte m
      if r.2.flag_z then
        Except.ok ({ r.2 with pc := (r.2.pc + sext8 r.1) % 65536 }, m, 12)
      else Except.ok (r.2, m, 8)
  | 0x29 => Except.ok (cpu.alu_add_hl cpu.hl, m, 8) -- ADD HL, HL
  | 0x2A => Except.ok ({ cpu.set_hl ((cpu.hl + 1) % 65536) with a := m.read_byte cpu.hl }, m, 8) -- LD A, (HL+)
  | 0x2B => Except.ok (cpu.set_hl ((cpu.hl + 65535) % 65536), m, 8) -- DEC HL
  | 0x2C => -- INC L
      let r := cpu.alu_inc cpu.l
      Except.ok ({ r.1 with l := r.2 }, m, 4)
  | 0x2D => -- DEC L
      let r := cpu.alu_dec cpu.l
      Except.ok ({ r.1 with l := r.2 }, m, 4)
  | 0x2E => -- LD L, d8
      let r := cpu.fetch_byte m
      Except.ok ({ r.2 with l := r.1 }, m, 8)
  | 0x2F => -- CPL
      let cpu := { cpu with a := cpu.a ^^^ 0xFF }
      let cpu := cpu.set_flag 0x40 true
      Except.ok (cpu.set_flag 0x20 true, m, 4)
  | _ => Except.error "invalid opcode byte"

/-- Opcodes 0x30-0x3F of the Cpu::step dispatch. -/
def Cpu.exec3 (cpu : Cpu) (m : Memory) (opcode : Nat) :
    Except String (Cpu × Memory × Nat) :=
  match opcode with
  | 0x30 => -- JR NC, r8
      let r := cpu.fetch_byte m
      if !r.2.flag_c then
        Except.ok ({ r.2 with pc := (r.2.pc + sext8 r.1) % 65536 }, m, 12)
      else Except.ok (r.2, m, 8)
  | 0x31 => -- LD SP, d16
      let r := cpu.fetch_word m
      Except.ok ({ r.2 with sp := r.1 }, m, 12)
  | 0x32 => Except.ok (cpu.set_hl ((cpu.hl + 65535) % 65536), m.write_byte cpu.hl cpu.a, 8) -- LD (HL-), A
  | 0x33 => Except.ok ({ cpu with sp := (cpu.sp + 1) % 65536 }, m, 8) -- INC SP
  | 0x34 => -- INC (HL)
      let v := m.read_byte cpu.hl
      let r := cpu.alu_inc v
      Except.ok (r.1, m.write_byte r.1.hl r.2, 12)
  | 0x35 => -- DEC (HL)
      let v := m.read_byte cpu.hl
      let r := cpu.alu_dec v
      Except.ok (r.1, m.write_byte r.1.hl r.2, 12)
  | 0x36 => -- LD (HL), d8
      let r := cpu.fetch_byte m
      Except.ok (r.2, m.write_byte r.2.hl r.1, 12)
  | 0x37 => -- SCF
      let cpu := cpu.set_flag 0x40 false
      let cpu := cpu.set_flag 0x20 false
      Except.ok (cpu.set_flag 0x10 true, m, 4)
  | 0x38 => -- JR C, r8
      let r := cpu.fetch_byte m
      if r.2.flag_c then
        Except.ok ({ r.2 with pc := (r.2.pc + sext8 r.1) % 65536 }, m, 12)
      else Except.ok (r.2, m, 8)
  | 0x39 => Except.ok (cpu.alu_add_hl cpu.sp, m, 8) -- ADD HL, SP
  | 0x3A => Except.ok ({ cpu.set_hl ((cpu.hl + 65535) % 65536) with a := m.read_byte cpu.hl }, m, 8) -- LD A, (HL-)
  | 0x3B => Except.ok ({ cpu with sp := (cpu.sp + 65535) % 65536 }, m, 8) -- DEC SP
  | 0x3C => -- INC A
      let r := cpu.alu_inc cpu.a
      Except.ok ({ r.1 with a := r.2 }, m, 4)
  | 0x3D => -- DEC A
      let r := cpu.alu_dec cpu.a
      Except.ok ({ r.1 with a := r.2 }, m, 4)
  | 0x3E => -- LD A, d8
      let r := cpu.fetch_byte m
      Except.ok ({ r.2 with a := r.1 }, m, 8)
  | 0x3F => -- CCF
      let cpu := cpu.set_flag 0x40 false
      let cpu := cpu.set_flag 0x20 false
      Except.ok (cpu.set_flag 0x10 (!cpu.flag_c), m, 4)
  | _ => Except.error "invalid opcode byte"

/-- Opcodes 0x40-0x4F of the Cpu::step dispatch. -/
def Cpu.exec4 (cpu : Cpu) (m : Memory) (opcode : Nat) :
    Except String (Cpu × Memory × Nat) :=
  match opcode with
  | 0x40 => Except.ok (cpu, m, 4) -- LD B, B
  | 0x41 => Except.ok ({ cpu with b := cpu.c }, m, 4) -- LD B, C
  | 0x42 => Except.ok ({ cpu with b := cpu.d }, m, 4) -- LD B, D
  | 0x43 => Except.ok ({ cpu with b := cpu.e }, m, 4) -- LD B, E
  | 0x44 => Except.ok ({ cpu with b := cpu.h }, m, 4) -- LD B, H
  | 0x45 => Except.ok ({ cpu with b := cpu.l }, m, 4) -- LD B, L
  | 0x46 => Except.ok ({ cpu with b := m.read_byte cpu.hl }, m, 8) -- LD B, (HL)
  | 0x47 => Except.ok ({ cpu with b := cpu.a }, m, 4) -- LD B, A
  | 0x48 => Except.ok ({ cpu with c := cpu.b }, m, 4) -- LD C, B
  | 0x49 => Except.ok (cpu, m, 4) -- LD C, C
  | 0x4A => Except.ok ({ cpu with c := cpu.d }, m, 4) -- LD C, D
  | 0x4B => Except.ok ({ cpu with c := cpu.e }, m, 4) -- LD C, E
  | 0x4C => Except.ok ({ cpu with c := cpu.h }, m, 4) -- LD C, H
  | 0x4D => Except.ok ({ cpu with c := cpu.l }, m, 4) -- LD C, L
  | 0x4E => Except.ok ({ cpu with c := m.read_byte cpu.hl }, m, 8) -- LD C, (HL)
  | 0x4F => Except.ok ({ cpu with c := cpu.a }, m, 4) -- LD C, A
  | _ => Except.error "invalid opcode byte"

/-- Opcodes 0x50-0x5F of the Cpu::step dispatch. -/
def Cpu.exec5 (cpu : Cpu) (m : Memory) (opcode : Nat) :
    Except String (Cpu × Memory × Nat) :=
  match opcode with
  | 0x50 => Except.ok ({ cpu with d := cpu.b }, m, 4) -- LD D, B
  | 0x51 => Except.ok ({ cpu with d := cpu.c }, m, 4) -- LD D, C
  | 0x52 => Except.ok (cpu, m, 4) -- LD D, D
  | 0x53 => Except.ok ({ cpu with d := cpu.e }, m, 4) -- LD D, E
  | 0x54 => Except.ok ({ cpu with d := cpu.h }, m, 4) -- LD D, H
  | 0x55 => Except.ok ({ cpu with d := cpu.l }, m, 4) -- LD D, L
  | 0x56 => Except.ok ({ cpu with d := m.read_byte cpu.hl }, m, 8) -- LD D, (HL)
  | 0x57 => Except.ok ({ cpu with d := cpu.a }, m, 4) -- LD D, A
  | 0x58 => Except.ok ({ cpu with e := cpu.b }, m, 4) -- LD E, B
  | 0x59 => Except.ok ({ cpu with e := cpu.c }, m, 4) -- LD E, C
  | 0x5A => Except.ok ({ cpu with e := cpu.d }, m, 4) -- LD E, D
  | 0x5B => Except.ok (cpu, m, 4) -- LD E, E
  | 0x5C => Except.ok ({ cpu with e := cpu.h }, m, 4) -- LD E, H
  | 0x5D => Except.ok ({ cpu with e := cpu.l }, m, 4) -- LD E, L
  | 0x5E => Except.ok ({ cpu with e := m.read_byte cpu.hl }, m, 8) -- LD E, (HL)
  | 0x5F => Except.ok ({ cpu with e := cpu.a }, m, 4) -- LD E, A
  | _ => Except.error "invalid opcode byte"

/-- Opcodes 0x60-0x6F of the Cpu::step dispatch. -/
def Cpu.exec6 (cpu : Cpu) (m : Memory) (opcode : Nat) :
    Except String (Cpu × Memory × Nat) :=
  match opcode with
  | 0x60 => Except.ok ({ cpu with h := cpu.b }, m, 4) -- LD H, B
  | 0x61 => Except.ok ({ cpu with h := cpu.c }, m, 4) -- LD H, C
  | 0x62 => Except.ok ({ cpu with h := cpu.d }, m, 4) -- LD H, D
  | 0x63 => Except.ok ({ cpu with h := cpu.e }, m, 4) -- LD H, E
  | 0x64 => Except.ok (cpu, m, 4) -- LD H, H
  | 0x65 => Except.ok ({ cpu with h := cpu.l }, m, 4) -- LD H, L
  | 0x66 => Except.ok ({ cpu with h := m.read_byte cpu.hl }, m, 8) -- LD H, (HL)
  | 0x67 => Except.ok ({ cpu with h := cpu.a }, m, 4) -- LD H, A
  | 0x68 => Except.ok ({ cpu with l := cpu.b }, m, 4) -- LD L, B
  | 0x69 => Except.ok ({ cpu with l := cpu.c }, m, 4) -- LD L, C
  | 0x6A => Except.ok ({ cpu with l := cpu.d }, m, 4) -- LD L, D
  | 0x6B => Except.ok ({ cpu with l := cpu.e }, m, 4) -- LD L, E
  | 0x6C => Except.ok ({ cpu with l := cpu.h }, m, 4) -- LD L, H
  | 0x6D => Except.ok (cpu, m, 4) -- LD L, L
  | 0x6E => Except.ok ({ cpu with l := m.read_byte cpu.hl }, m, 8) -- LD L, (HL)
  | 0x6F => Except.ok ({ cpu with l := cpu.a }, m, 4) -- LD L, A
  | _ => Except.error "invalid opcode byte"

/-- Opcodes 0x70-0x7F of the Cpu::step dispatch. -/
def Cpu.exec7 (cpu : Cpu) (m : Memory) (opcode : Nat) :
    Except String (Cpu × Memory × Nat) :=
  match opcode with
  | 0x70 => Except.ok (cpu, m.write_byte cpu.hl cpu.b, 8) -- LD (HL), B
  | 0x71 => Except.ok (cpu, m.write_byte cpu.hl cpu.c, 8) -- LD (HL), C
  | 0x72 => Except.ok (cpu, m.write_byte cpu.hl cpu.d, 8) -- LD (HL), D
  | 0x73 => Except.ok (cpu, m.write_byte cpu.hl cpu.e, 8) -- LD (HL), E
  | 0x74 => Except.ok (cpu, m.write_byte cpu.hl cpu.h, 8) -- LD (HL), H
  | 0x75 => Except.ok (cpu, m.write_byte cpu.hl cpu.l, 8) -- LD (HL), L
  | 0x76 => Except.ok ({ cpu with halted := true }, m, 4) -- HALT
  | 0x77 => Except.ok (cpu, m.write_byte cpu.hl cpu.a, 8) -- LD (HL), A
  | 0x78 => Except.ok ({ cpu with a := cpu.b }, m, 4) -- LD A, B
  | 0x79 => Except.ok ({ cpu with a := cpu.c }, m, 4) -- LD A, C
  | 0x7A => Except.ok ({ cpu with a := cpu.d }, m, 4) -- LD A, D
  | 0x7B => Except.ok ({ cpu with a := cpu.e }, m, 4) -- LD A, E
  | 0x7C => Except.ok ({ cpu with a := cpu.h }, m, 4) -- LD A, H
  | 0x7D => Except.ok ({ cpu with a := cpu.l }, m, 4) -- LD A, L
  | 0x7E => Except.ok ({ cpu with a := m.read_byte cpu.hl }, m, 8) -- LD A, (HL)
  | 0x7F => Except.ok (cpu, m, 4) -- LD A, A
  | _ => Except.error "invalid opcode byte"

/-- Opcodes 0x80-0x8F of the Cpu::step dispatch. -/
def Cpu.exec8 (cpu : Cpu) (m : Memory) (opcode : Nat) :
    Except String (Cpu × Memory × Nat) :=
  match opcode with
  | 0x80 => Except.ok (cpu.alu_add cpu.b, m, 4) -- ADD A, B
  | 0x81 => Except.ok (cpu.alu_add cpu.c, m, 4) -- ADD A, C
  | 0x82 => Except.ok (cpu.alu_add cpu.d, m, 4) -- ADD A, D
  | 0x83 => Except.ok (cpu.alu_add cpu.e, m, 4) -- ADD A, E
  | 0x84 => Except.ok (cpu.alu_add cpu.h, m, 4) -- ADD A, H
  | 0x85 => Except.ok (cpu.alu_add cpu.l, m, 4) -- ADD A, L
  | 0x86 => Except.ok (cpu.alu_add (m.read_byte cpu.hl), m, 8) -- ADD A, (HL)
  | 0x87 => Except.ok (cpu.alu_add cpu.a, m, 4) -- ADD A, A
  | 0x88 => Except.ok (cpu.alu_adc cpu.b, m, 4) -- ADC A, B
  | 0x89 => Except.ok (cpu.alu_adc cpu.c, m, 4) -- ADC A, C
  | 0x8A => Except.ok (cpu.alu_adc cpu.d, m, 4) -- ADC A, D
  | 0x8B => Except.ok (cpu.alu_adc cpu.e, m, 4) -- ADC A, E
  | 0x8C => Except.ok (cpu.alu_adc cpu.h, m, 4) -- ADC A, H
  | 0x8D => Except.ok (cpu.alu_adc cpu.l, m, 4) -- ADC A, L
  | 0x8E => Except.ok (cpu.alu_adc (m.read_byte cpu.hl), m, 8) -- ADC A, (HL)
  | 0x8F => Except.ok (cpu.alu_adc cpu.a, m, 4) -- ADC A, A
  | _ => Except.error "invalid opcode byte"

/-- Opcodes 0x90-0x9F of the Cpu::step dispatch. -/
def Cpu.exec9 (cpu : Cpu) (m : Memory) (opcode : Nat) :
    Except String (Cpu × Memory × Nat) :=
  match opcode with
  | 0x90 => Except.ok (cpu.alu_sub cpu.b, m, 4) -- SUB B
  | 0x91 => Except.ok (cpu.alu_sub cpu.c, m, 4) -- SUB C
  | 0x92 => Except.ok (cpu.alu_sub cpu.d, m, 4) -- SUB D
  | 0x93 => Except.ok (cpu.alu_sub cpu.e, m, 4) -- SUB E
  | 0x94 => Except.ok (cpu.alu_sub cpu.h, m, 4) -- SUB H
  | 0x95 => Except.ok (cpu.alu_sub cpu.l, m, 4) -- SUB L
  | 0x96 => Except.ok (cpu.alu_sub (m.read_byte cpu.hl), m, 8) -- SUB (HL)
  | 0x97 => Except.ok (cpu.alu_sub cpu.a, m, 4) -- SUB A
  | 0x98 => Except.ok (cpu.alu_sbc cpu.b, m, 4) -- SBC A, B
  | 0x99 => Except.ok (cpu.alu_sbc cpu.c, m, 4) -- SBC A, C
  | 0x9A => Except.ok (cpu.alu_sbc cpu.d, m, 4) -- SBC A, D
  | 0x9B => Except.ok (cpu.alu_sbc cpu.e, m, 4) -- SBC A, E
  | 0x9C => Except.ok (cpu.alu_sbc cpu.h, m, 4) -- SBC A, H
  | 0x9D => Except.ok (cpu.alu_sbc cpu.l, m, 4) -- SBC A, L
  | 0x9E => Except.ok (cpu.alu_sbc (m.read_byte cpu.hl), m, 8) -- SBC A, (HL)
  | 0x9F => Except.ok (cpu.alu_sbc cpu.a, m, 4) -- SBC A, A
  | _ => Except.error "invalid opcode byte"

/-- Opcodes 0xA0-0xAF of the Cpu::step dispatch. -/
def Cpu.exec10 (cpu : Cpu) (m : Memory) (opcode : Nat) :
    Except String (Cpu × Memory × Nat) :=
  match opcode with
  | 0xA0 => Except.ok (cpu.alu_and cpu.b, m, 4) -- AND B
  | 0xA1 => Except.ok (cpu.alu_and cpu.c, m, 4) -- AND C
  | 0xA2 => Except.ok (cpu.alu_and cpu.d, m, 4) -- AND D
  | 0xA3 => Except.ok (cpu.alu_and cpu.e, m, 4) -- AND E
  | 0xA4 => Except.ok (cpu.alu_and cpu.h, m, 4) -- AND H
  | 0xA5 => Except.ok (cpu.alu_and cpu.l, m, 4) -- AND L
  | 0xA6 => Except.ok (cpu.alu_and (m.read_byte cpu.hl), m, 8) -- AND (HL)
  | 0xA7 => Except.ok (cpu.alu_and cpu.a, m, 4) -- AND A
  | 0xA8 => Except.ok (cpu.alu_xor cpu.b, m, 4) -- XOR B
  | 0xA9 => Except.ok (cpu.alu_xor cpu.c, m, 4) -- XOR C
  | 0xAA => Except.ok (cpu.alu_xor cpu.d, m, 4) -- XOR D
  | 0xAB => Except.ok (cpu.alu_xor cpu.e, m, 4) -- XOR E
  | 0xAC => Except.ok (cpu.alu_xor cpu.h, m, 4) -- XOR H
  | 0xAD => Except.ok (cpu.alu_xor cpu.l, m, 4) -- XOR L
  | 0xAE => Except.ok (cpu.alu_xor (m.read_byte cpu.hl), m, 8) -- XOR (HL)
  | 0xAF => Except.ok (cpu.alu_xor cpu.a, m, 4) -- XOR A
  | _ => Except.error "invalid opcode byte"

/-- Opcodes 0xB0-0xBF of the Cpu::step dispatch. -/
def Cpu.exec11 (cpu : Cpu) (m : Memory) (opcode : Nat) :
    Except String (Cpu × Memory × Nat) :=
  match opcode with
  | 0xB0 => Except.ok (cpu.alu_or cpu.b, m, 4) -- OR B
  | 0xB1 => Except.ok (cpu.alu_or cpu.c, m, 4) -- OR C
  | 0xB2 => Except.ok (cpu.alu_or cpu.d, m, 4) -- OR D
  | 0xB3 => Except.ok (cpu.alu_or cpu.e, m, 4) -- OR E
  | 0xB4 => Except.ok (cpu.alu_or cpu.h, m, 4) -- OR H
  | 0xB5 => Except.ok (cpu.alu_or cpu.l, m, 4) -- OR L
  | 0xB6 => Except.ok (cpu.alu_or (m.read_byte cpu.hl), m, 8) -- OR (HL)
  | 0xB7 => Except.ok (cpu.alu_or cpu.a, m, 4) -- OR A
  | 0xB8 => Except.ok (cpu.alu_cp cpu.b, m, 4) -- CP B
  | 0xB9 => Except.ok (cpu.alu_cp cpu.c, m, 4) -- CP C
  | 0xBA => Except.ok (cpu.alu_cp cpu.d, m, 4) -- CP D
  | 0xBB => Except.ok (cpu.alu_cp cpu.e, m, 4) -- CP E
  | 0xBC => Except.ok (cpu.alu_cp cpu.h, m, 4) -- CP H
  | 0xBD => Except.ok (cpu.alu_cp cpu.l, m, 4) -- CP L
  | 0xBE => Except.ok (cpu.alu_cp (m.read_byte cpu.hl), m, 8) -- CP (HL)
  | 0xBF => Except.ok (cpu.alu_cp cpu.a, m, 4) -- CP A
  | _ => Except.error "invalid opcode byte"

/-- Opcodes 0xC0-0xCF of the Cpu::step dispatch. -/
def Cpu.exec12 (cpu : Cpu) (m : Memory) (opcode : Nat) :
    Except String (Cpu × Memory × Nat) :=
  match opcode with
  | 0xC0 => -- RET NZ
      if !cpu.flag_z then
        let r := cpu.pop m
        Except.ok ({ r.2 with pc := r.1 }, m, 20)
      else Except.ok (cpu, m, 8)
  | 0xC1 => -- POP BC
      let r := cpu.pop m
      Except.ok (r.2.set_bc r.1, m, 12)
  | 0xC2 => -- JP NZ, a16
      let r := cpu.fetch_word m
      if !r.2.flag_z then Except.ok ({ r.2 with pc := r.1 }, m, 16)
      else Except.ok (r.2, m, 12)
  | 0xC3 => -- JP a16
      let r := cpu.fetch_word m
      Except.ok ({ r.2 with pc := r.1 }, m, 16)
  | 0xC4 => -- CALL NZ, a16
      let r := cpu.fetch_word m
      if !r.2.flag_z then
        let p := r.2.push m r.2.pc
        Except.ok ({ p.1 with pc := r.1 }, p.2, 24)
      else Except.ok (r.2, m, 12)
  | 0xC5 => -- PUSH BC
      let r := cpu.push m cpu.bc
      Except.ok (r.1, r.2, 16)
  | 0xC6 => -- ADD A, d8
      let r := cpu.fetch_byte m
      Except.ok (r.2.alu_add r.1, m, 8)
  | 0xC7 => -- RST 00H
      let p := cpu.push m cpu.pc
      Except.ok ({ p.1 with pc := 0x00 }, p.2, 16)
  | 0xC8 => -- RET Z
      if cpu.flag_z then
        let r := cpu.pop m
        Except.ok ({ r.2 with pc := r.1 }, m, 20)
      else Except.ok (cpu, m, 8)
  | 0xC9 => -- RET
      let r := cpu.pop m
      Except.ok ({ r.2 with pc := r.1 }, m, 16)
  | 0xCA => -- JP Z, a16
      let r := cpu.fetch_word m
      if r.2.flag_z then Except.ok ({ r.2 with pc := r.1 }, m, 16)
      else Except.ok (r.2, m, 12)
  | 0xCB => Except.ok (cpu.execute_cb m) -- CB table
  | 0xCC => -- CALL Z, a16
      let r := cpu.fetch_word m
      if r.2.flag_z then
        let p := r.2.push m r.2.pc
        Except.ok ({ p.1 with pc := r.1 }, p.2, 24)
      else Except.ok (r.2, m, 12)
  | 0xCD => -- CALL a16
      let r := cpu.fetch_word m
      let p := r.2.push m r.2.pc
      Except.ok ({ p.1 with pc := r.1 }, p.2, 24)
  | 0xCE => -- ADC A, d8
      let r := cpu.fetch_byte m
      Except.ok (r.2.alu_adc r.1, m, 8)
  | 0xCF => -- RST 08H
      let p := cpu.push m cpu.pc
      Except.ok ({ p.1 with pc := 0x08 }, p.2, 16)
  | _ => Except.error "invalid opcode byte"

/-- Opcodes 0xD0-0xDF of the Cpu::step dispatch. -/
def Cpu.exec13 (cpu : Cpu) (m : Memory) (opcode : Nat) :
    Except String (Cpu × Memory × Nat) :=
  match opcode with
  | 0xD0 => -- RET NC
      if !cpu.flag_c then
        let r := cpu.pop m
        Except.ok ({ r.2 with pc := r.1 }, m, 20)
      else Except.ok (cpu, m, 8)
  | 0xD1 => -- POP DE
      let r := cpu.pop m
      Except.ok (r.2.set_de r.1, m, 12)
  | 0xD2 => -- JP NC, a16
      let r := cpu.fetch_word m
      if !r.2.flag_c then Except.ok ({ r.2 with pc := r.1 }, m, 16)
      else Except.ok (r.2, m, 12)
  | 0xD3 => Except.error "Illegal opcode 0xD3"
  | 0xD4 => -- CALL NC, a16
      let r := cpu.fetch_word m
      if !r.2.flag_c then
        let p := r.2.push m r.2.pc
        Except.ok ({ p.1 with pc := r.1 }, p.2, 24)
      else Except.ok (r.2, m, 12)
  | 0xD5 => -- PUSH DE
      let r := cpu.push m cpu.de
      Except.ok (r.1, r.2, 16)
  | 0xD6 => -- SUB d8
      let r := cpu.fetch_byte m
      Except.ok (r.2.alu_sub r.1, m, 8)
  | 0xD7 => -- RST 10H
      let p := cpu.push m cpu.pc
      Except.ok ({ p.1 with pc := 0x10 }, p.2, 16)
  | 0xD8 => -- RET C
      if cpu.flag_c then
        let r := cpu.pop m
        Except.ok ({ r.2 with pc := r.1 }, m, 20)
      else Except.ok (cpu, m, 8)
  | 0xD9 => -- RETI
      let r := cpu.pop m
      Except.ok ({ r.2 with pc := r.1, ime := true }, m, 16)
  | 0xDA => -- JP C, a16
      let r := cpu.fetch_word m
      if r.2.flag_c then Except.ok ({ r.2 with pc := r.1 }, m, 16)
      else Except.ok (r.2, m, 12)
  | 0xDB => Except.error "Illegal opcode 0xDB"
  | 0xDC => -- CALL C, a16
      let r := cpu.fetch_word m
      if r.2.flag_c then
        let p := r.2.push m r.2.pc
        Except.ok ({ p.1 with pc := r.1 }, p.2, 24)
      else Except.ok (r.2, m, 12)
  | 0xDD => Except.error "Illegal opcode 0xDD"
  | 0xDE => -- SBC A, d8
      let r := cpu.fetch_byte m
      Except.ok (r.2.alu_sbc r.1, m, 8)
  | 0xDF => -- RST 18H
      let p := cpu.push m cpu.pc
      Except.ok ({ p.1 with pc := 0x18 }, p.2, 16)
  | _ => Except.error "invalid opcode byte"

/-- Opcodes 0xE0-0xEF of the Cpu::step dispatch. -/
def Cpu.exec14 (cpu : Cpu) (m : Memory) (opcode : Nat) :
    Except String (Cpu × Memory × Nat) :=
  match opcode with
  | 0xE0 => -- LDH (a8), A
      let r := cpu.fetch_byte m
      Except.ok (r.2, m.write_byte (0xFF00 + r.1) r.2.a, 12)
  | 0xE1 => -- POP HL
      let r := cpu.pop m
      Except.ok (r.2.set_hl r.1, m, 12)
  | 0xE2 => Except.ok (cpu, m.write_byte (0xFF00 + cpu.c) cpu.a, 8) -- LD (C), A
  | 0xE3 => Except.error "Illegal opcode 0xE3"
  | 0xE4 => Except.error "Illegal opcode 0xE4"
  | 0xE5 => -- PUSH HL
      let r := cpu.push m cpu.hl
      Except.ok (r.1, r.2, 16)
  | 0xE6 => -- AND d8
      let r := cpu.fetch_byte m
      Except.ok (r.2.alu_and r.1, m, 8)
  | 0xE7 => -- RST 20H
      let p := cpu.push m cpu.pc
      Except.ok ({ p.1 with pc := 0x20 }, p.2, 16)
  | 0xE8 => -- ADD SP, r8
      let r := cpu.fetch_byte m
      let s := r.2.alu_add_sp r.1
      Except.ok ({ s.1 with sp := s.2 }, m, 16)
  | 0xE9 => Except.ok ({ cpu with pc := cpu.hl }, m, 4) -- JP HL
  | 0xEA => -- LD (a16), A
      let r := cpu.fetch_word m
      Except.ok (r.2, m.write_byte r.1 r.2.a, 16)
  | 0xEB => Except.error "Illegal opcode 0xEB"
  | 0xEC => Except.error "Illegal opcode 0xEC"
  | 0xED => Except.error "Illegal opcode 0xED"
  | 0xEE => -- XOR d8
      let r := cpu.fetch_byte m
      Except.ok (r.2.alu_xor r.1, m, 8)
  | 0xEF => -- RST 28H
      let p := cpu.push m cpu.pc
      Except.ok ({ p.1 with pc := 0x28 }, p.2, 16)
  | _ => Except.error "invalid opcode byte"

/-- Opcodes 0xF0-0xFF of the Cpu::step dispatch. -/
def Cpu.exec15 (cpu : Cpu) (m : Memory) (opcode : Nat) :
    Except String (Cpu × Memory × Nat) :=
  match opcode with
  | 0xF0 => -- LDH A, (a8)
      let r := cpu.fetch_byte m
      Except.ok ({ r.2 with a := m.read_byte (0xFF00 + r.1) }, m, 12)
  | 0xF1 => -- POP AF
      let r := cpu.pop m
      Except.ok (r.2.set_af r.1, m, 12)
  | 0xF2 => Except.ok ({ cpu with a := m.read_byte (0xFF00 + cpu.c) }, m, 8) -- LD A, (C)
  | 0xF3 => Except.ok ({ cpu with ime := false }, m, 4) -- DI
  | 0xF4 => Except.error "Illegal opcode 0xF4"
  | 0xF5 => -- PUSH AF
      let r := cpu.push m cpu.af
      Except.ok (r.1, r.2, 16)
  | 0xF6 => -- OR d8
      let r := cpu.fetch_byte m
      Except.ok (r.2.alu_or r.1, m, 8)
  | 0xF7 => -- RST 30H
      let p := cpu.push m cpu.pc
      Except.ok ({ p.1 with pc := 0x30 }, p.2, 16)
  | 0xF8 => -- LD HL, SP+r8
      let r := cpu.fetch_byte m
      let s := r.2.alu_add_sp r.1
      Except.ok (s.1.set_hl s.2, m, 12)
  | 0xF9 => Except.ok ({ cpu with sp := cpu.hl }, m, 8) -- LD SP, HL
  | 0xFA => -- LD A, (a16)
      let r := cpu.fetch_word m
      Except.ok ({ r.2 with a := m.read_byte r.1 }, m, 16)
  | 0xFB => Except.ok ({ cpu with ime_pending := true }, m, 4) -- EI
  | 0xFC => Except.error "Illegal opcode 0xFC"
  | 0xFD => Except.error "Illegal opcode 0xFD"
  | 0xFE => -- CP d8
      let r := cpu.fetch_byte m
      Except.ok (r.2.alu_cp r.1, m, 8)
  | 0xFF => -- RST 38H
      let p := cpu.push m cpu.pc
      Except.ok ({ p.1 with pc := 0x38 }, p.2, 16)
  | _ => Except.error "invalid opcode byte"

/-- The opcode dispatch of Cpu::step, split by high nibble: one match
arm per opcode across the sixteen blocks, executed after the fetch;
the eleven illegal opcodes return an error (a panic in the Rust
code).  The default arms are unreachable for byte-valued opcodes. -/
def Cpu.exec (cpu : Cpu) (m : Memory) (opcode : Nat) :
    Except String (Cpu × Memory × Nat) :=
  match opcode >>> 4 with
  | 0 => cpu.exec0 m opcode
  | 1 => cpu.exec1 m opcode
  | 2 => cpu.exec2 m opcode
  | 3 => cpu.exec3 m opcode
  | 4 => cpu.exec4 m opcode
  | 5 => cpu.exec5 m opcode
  | 6 => cpu.exec6 m opcode
  | 7 => cpu.exec7 m opcode
  | 8 => cpu.exec8 m opcode
  | 9 => cpu.exec9 m opcode
  | 10 => cpu.exec10 m opcode
  | 11 => cpu.exec11 m opcode
  | 12 => cpu.exec12 m opcode
  | 13 => cpu.exec13 m opcode
  | 14 => cpu.exec14 m opcode
  | 15 => cpu.exec15 m opcode
  | _ => Except.error "invalid opcode byte"

/-- Cpu::step - apply the pending EI enable, return 4 cycles when
halted, otherwise fetch the opcode at PC and dispatch. -/
def Cpu.step (cpu : Cpu) (m : Memory) : Except String (Cpu × Memory × Nat) :=
  let cpu := if cpu.ime_pending then
      { cpu with ime := true, ime_pending := false }
    else cpu
  if cpu.halted then Except.ok (cpu, m, 4)
  else
    let r := cpu.fetch_byte m
    Cpu.exec r.2 m r.1


/-! ## The F-register low nibble stays zero -/

theorem and15_mod (x : Nat) : x &&& 15 = x % 16 := by
  simpa using Nat.and_pow_two_sub_one_eq_mod x 4

theorem fzero_or (a b : Nat) (ha : a % 16 = 0) (hb : b % 16 = 0) :
    (a ||| b) % 16 = 0 := by
  rw [← and15_mod] at ha hb ⊢
  apply Nat.eq_of_testBit_eq
  intro i
  have ha' := congrArg (fun x => Nat.testBit x i) ha
  have hb' := congrArg (fun x => Nat.testBit x i) hb
  simp only [Nat.testBit_and, Nat.testBit_or, Nat.zero_testBit,
    Bool.and_eq_false_iff] at ha' hb' ⊢
  rcases ha' with ha' | ha' <;> rcases hb' with hb' | hb' <;> simp [ha', hb']

theorem fzero_and (a b : Nat) (ha : a % 16 = 0) : (a &&& b) % 16 = 0 := by
  rw [← and15_mod] at ha ⊢
  apply Nat.eq_of_testBit_eq
  intro i
  have ha' := congrArg (fun x => Nat.testBit x i) ha
  simp only [Nat.testBit_and, Nat.testBit_or, Nat.zero_testBit,
    Bool.and_eq_false_iff] at ha' ⊢
  rcases ha' with ha' | ha' <;> simp [ha']

theorem and240_mod16 (v : Nat) : (v &&& 240) % 16 = 0 := by
  rw [← and15_mod, Nat.and_assoc]
  rw [show (240 &&& 15 : Nat) = 0 from rfl]
  exact Nat.and_zero v

@[simp] theorem set_flags_f (c : Cpu) (z n h cc : Bool) :
    (c.set_flags z n h cc).f % 16 = 0 := by
  simp only [Cpu.set_flags]
  cases z <;> cases n <;> cases h <;> cases cc <;> decide

theorem set_flag_f (c : Cpu) (flag : Nat) (v : Bool)
    (hf : c.f % 16 = 0) (hflag : flag % 16 = 0) :
    (c.set_flag flag v).f % 16 = 0 := by
  unfold Cpu.set_flag
  split
  · exact fzero_or _ _ hf hflag
  · exact fzero_and _ _ hf

@[simp] theorem set_af_f (c : Cpu) (v : Nat) : (c.set_af v).f % 16 = 0 := by
  simp [Cpu.set_af, and240_mod16]

@[simp] theorem set_bc_f (c : Cpu) (v : Nat) : (c.set_bc v).f = c.f := rfl
@[simp] theorem set_de_f (c : Cpu) (v : Nat) : (c.set_de v).f = c.f := rfl
@[simp] theorem set_hl_f (c : Cpu) (v : Nat) : (c.set_hl v).f = c.f := rfl
@[simp] theorem fetch_byte_f (c : Cpu) (m : Memory) :
    ((c.fetch_byte m).2).f = c.f := rfl
@[simp] theorem fetch_word_f (c : Cpu) (m : Memory) :
    ((c.fetch_word m).2).f = c.f := rfl
@[simp] theorem pop_f (c : Cpu) (m : Memory) : ((c.pop m).2).f = c.f := rfl
@[simp] theorem push_f (c : Cpu) (m : Memory) (v : Nat) :
    ((c.push m v).1).f = c.f := by
  simp only [Cpu.push]

@[simp] theorem set_reg_f (c : Cpu) (m : Memory) (i v : Nat) :
    ((c.set_reg m i v).1).f = c.f := by
  unfold Cpu.set_reg
  repeat' split
  all_goals rfl

theorem set_reg_f_mod (c : Cpu) (m : Memory) (i v : Nat)
    (h : c.f % 16 = 0) : ((c.set_reg m i v).1).f % 16 = 0 := by
  rw [set_reg_f]; exact h

@[simp] theorem alu_add_f (c : Cpu) (v : Nat) : (c.alu_add v).f % 16 = 0 := by
  simp [Cpu.alu_add]
@[simp] theorem alu_adc_f (c : Cpu) (v : Nat) : (c.alu_adc v).f % 16 = 0 := by
  simp [Cpu.alu_adc]
@[simp] theorem alu_sub_f (c : Cpu) (v : Nat) : (c.alu_sub v).f % 16 = 0 := by
  simp [Cpu.alu_sub]
@[simp] theorem alu_sbc_f (c : Cpu) (v : Nat) : (c.alu_sbc v).f % 16 = 0 := by
  simp [Cpu.alu_sbc]
@[simp] theorem alu_and_f (c : Cpu) (v : Nat) : (c.alu_and v).f % 16 = 0 := by
  simp [Cpu.alu_and]
@[simp] theorem alu_xor_f (c : Cpu) (v : Nat) : (c.alu_xor v).f % 16 = 0 := by
  simp [Cpu.alu_xor]
@[simp] theorem alu_or_f (c : Cpu) (v : Nat) : (c.alu_or v).f % 16 = 0 := by
  simp [Cpu.alu_or]
@[simp] theorem alu_cp_f (c : Cpu) (v : Nat) : (c.alu_cp v).f % 16 = 0 := by
  simp [Cpu.alu_cp]
@[simp] theorem alu_add_sp_f (c : Cpu) (v : Nat) :
    ((c.alu_add_sp v).1).f % 16 = 0 := by
  simp [Cpu.alu_add_sp]
@[simp] theorem alu_rlc_f (c : Cpu) (v : Nat) : ((c.alu_rlc v).1).f % 16 = 0 := by
  simp [Cpu.alu_rlc]
@[simp] theorem alu_rrc_f (c : Cpu) (v : Nat) : ((c.alu_rrc v).1).f % 16 = 0 := by
  simp [Cpu.alu_rrc]
@[simp] theorem alu_rl_f (c : Cpu) (v : Nat) : ((c.alu_rl v).1).f % 16 = 0 := by
  simp [Cpu.alu_rl]
@[simp] theorem alu_rr_f (c : Cpu) (v : Nat) : ((c.alu_rr v).1).f % 16 = 0 := by
  simp [Cpu.alu_rr]
@[simp] theorem alu_sla_f (c : Cpu) (v : Nat) : ((c.alu_sla v).1).f % 16 = 0 := by
  simp [Cpu.alu_sla]
@[simp] theorem alu_sra_f (c : Cpu) (v : Nat) : ((c.alu_sra v).1).f % 16 = 0 := by
  simp [Cpu.alu_sra]
@[simp] theorem alu_swap_f (c : Cpu) (v : Nat) : ((c.alu_swap v).1).f % 16 = 0 := by
  simp [Cpu.alu_swap]
@[simp] theorem alu_srl_f (c : Cpu) (v : Nat) : ((c.alu_srl v).1).f % 16 = 0 := by
  simp [Cpu.alu_srl]

@[simp] theorem chain2_f (c : Cpu) (b1 b2 : Bool) (hf : c.f % 16 = 0) :
    ((c.set_flag 64 b1).set_flag 32 b2).f % 16 = 0 :=
  set_flag_f _ _ _ (set_flag_f _ _ _ hf (by norm_num)) (by norm_num)

@[simp] theorem chain3_f (c : Cpu) (b1 b2 b3 : Bool) (hf : c.f % 16 = 0) :
    (((c.set_flag 64 b1).set_flag 32 b2).set_flag 16 b3).f % 16 = 0 :=
  set_flag_f _ _ _ (chain2_f c b1 b2 hf) (by norm_num)

@[simp] theorem alu_inc_f (c : Cpu) (v : Nat) (hf : c.f % 16 = 0) :
    ((c.alu_inc v).1).f % 16 = 0 :=
  set_flag_f _ _ _ (set_flag_f _ _ _ (set_flag_f _ _ _ hf (by norm_num))
    (by norm_num)) (by norm_num)
@[simp] theorem alu_dec_f (c : Cpu) (v : Nat) (hf : c.f % 16 = 0) :
    ((c.alu_dec v).1).f % 16 = 0 :=
  set_flag_f _ _ _ (set_flag_f _ _ _ (set_flag_f _ _ _ hf (by norm_num))
    (by norm_num)) (by norm_num)
@[simp] theorem alu_add_hl_f (c : Cpu) (v : Nat) (hf : c.f % 16 = 0) :
    (c.alu_add_hl v).f % 16 = 0 :=
  set_flag_f _ _ _ (set_flag_f _ _ _ (set_flag_f _ _ _ hf (by norm_num))
    (by norm_num)) (by norm_num)
@[simp] theorem alu_bit_f (c : Cpu) (bit v : Nat) (hf : c.f % 16 = 0) :
    (c.alu_bit bit v).f % 16 = 0 :=
  set_flag_f _ _ _ (set_flag_f _ _ _ (set_flag_f _ _ _ hf (by norm_num))
    (by norm_num)) (by norm_num)

@[simp] theorem alu_daa_f (c : Cpu) (hf : c.f % 16 = 0) :
    (c.alu_daa).f % 16 = 0 := by
  simp only [Cpu.alu_daa]
  split_ifs
  all_goals
    first
      | exact set_flag_f _ _ _ (set_flag_f _ _ _ (set_flag_f _ _ _ hf
          (by norm_num)) (by norm_num)) (by norm_num)
      | exact set_flag_f _ _ _ (set_flag_f _ _ _ hf (by norm_num)) (by norm_num)

theorem execute_cb_op_f (c : Cpu) (m : Memory) (opcode : Nat)
    (hf : c.f % 16 = 0) : ((c.execute_cb_op m opcode).1).f % 16 = 0 := by
  simp only [Cpu.execute_cb_op]
  by_cases h1 : opcode ≤ 7
  · rw [if_pos h1]; exact set_reg_f_mod _ _ _ _ (alu_rlc_f _ _)
  rw [if_neg h1]
  by_cases h2 : opcode ≤ 15
  · rw [if_pos h2]; exact set_reg_f_mod _ _ _ _ (alu_rrc_f _ _)
  rw [if_neg h2]
  by_cases h3 : opcode ≤ 23
  · rw [if_pos h3]; exact set_reg_f_mod _ _ _ _ (alu_rl_f _ _)
  rw [if_neg h3]
  by_cases h4 : opcode ≤ 31
  · rw [if_pos h4]; exact set_reg_f_mod _ _ _ _ (alu_rr_f _ _)
  rw [if_neg h4]
  by_cases h5 : opcode ≤ 39
  · rw [if_pos h5]; exact set_reg_f_mod _ _ _ _ (alu_sla_f _ _)
  rw [if_neg h5]
  by_cases h6 : opcode ≤ 47
  · rw [if_pos h6]; exact set_reg_f_mod _ _ _ _ (alu_sra_f _ _)
  rw [if_neg h6]
  by_cases h7 : opcode ≤ 55
  · rw [if_pos h7]; exact set_reg_f_mod _ _ _ _ (alu_swap_f _ _)
  rw [if_neg h7]
  by_cases h8 : opcode ≤ 63
  · rw [if_pos h8]; exact set_reg_f_mod _ _ _ _ (alu_srl_f _ _)
  rw [if_neg h8]
  by_cases h9 : opcode ≤ 127
  · rw [if_pos h9]; exact alu_bit_f _ _ _ hf
  rw [if_neg h9]
  by_cases h10 : opcode ≤ 191
  · rw [if_pos h10]; exact set_reg_f_mod _ _ _ _ hf
  rw [if_neg h10]
  exact set_reg_f_mod _ _ _ _ hf

@[simp] theorem execute_cb_f (c : Cpu) (m : Memory) (hf : c.f % 16 = 0) :
    ((c.execute_cb m).1).f % 16 = 0 := by
  simp only [Cpu.execute_cb]
  exact execute_cb_op_f _ _ _ (by simpa using hf)

theorem exec0_f (c : Cpu) (m : Memory) (op : Nat) (r : Cpu × Memory × Nat)
    (hf : c.f % 16 = 0) (he : Cpu.exec0 c m op = Except.ok r) :
    (r.1).f % 16 = 0 := by
  unfold Cpu.exec0 at he
  split at he
  all_goals try simp only [] at he
  all_goals try split at he
  all_goals
    first
      | (injection he with h2; subst h2;
         simp only [set_flags_f, set_af_f, set_bc_f, set_de_f, set_hl_f,
           fetch_byte_f, fetch_word_f, pop_f, push_f, set_reg_f,
           alu_add_f, alu_adc_f, alu_sub_f, alu_sbc_f, alu_and_f, alu_xor_f,
           alu_or_f, alu_cp_f, alu_add_sp_f, alu_rlc_f, alu_rrc_f, alu_rl_f,
           alu_rr_f, alu_sla_f, alu_sra_f, alu_swap_f, alu_srl_f, chain2_f,
           chain3_f, alu_inc_f, alu_dec_f, alu_add_hl_f, alu_bit_f, alu_daa_f,
           execute_cb_f, hf])
      | injection he

theorem exec1_f (c : Cpu) (m : Memory) (op : Nat) (r : Cpu × Memory × Nat)
    (hf : c.f % 16 = 0) (he : Cpu.exec1 c m op = Except.ok r) :
    (r.1).f % 16 = 0 := by
  unfold Cpu.exec1 at he
  split at he
  all_goals try simp only [] at he
  all_goals try split at he
  all_goals
    first
      | (injection he with h2; subst h2;
         simp only [set_flags_f, set_af_f, set_bc_f, set_de_f, set_hl_f,
           fetch_byte_f, fetch_word_f, pop_f, push_f, set_reg_f,
           alu_add_f, alu_adc_f, alu_sub_f, alu_sbc_f, alu_and_f, alu_xor_f,
           alu_or_f, alu_cp_f, alu_add_sp_f, alu_rlc_f, alu_rrc_f, alu_rl_f,
           alu_rr_f, alu_sla_f, alu_sra_f, alu_swap_f, alu_srl_f, chain2_f,
           chain3_f, alu_inc_f, alu_dec_f, alu_add_hl_f, alu_bit_f, alu_daa_f,
           execute_cb_f, hf])
      | injection he

theorem exec2_f (c : Cpu) (m : Memory) (op : Nat) (r : Cpu × Memory × Nat)
    (hf : c.f % 16 = 0) (he : Cpu.exec2 c m op = Except.ok r) :
    (r.1).f % 16 = 0 := by
  unfold Cpu.exec2 at he
  split at he
  all_goals try simp only [] at he
  all_goals try split at he
  all_goals
    first
      | (injection he with h2; subst h2;
         simp only [set_flags_f, set_af_f, set_bc_f, set_de_f, set_hl_f,
           fetch_byte_f, fetch_word_f, pop_f, push_f, set_reg_f,
           alu_add_f, alu_adc_f, alu_sub_f, alu_sbc_f, alu_and_f, alu_xor_f,
           alu_or_f, alu_cp_f, alu_add_sp_f, alu_rlc_f, alu_rrc_f, alu_rl_f,
           alu_rr_f, alu_sla_f, alu_sra_f, alu_swap_f, alu_srl_f, chain2_f,
           chain3_f, alu_inc_f, alu_dec_f, alu_add_hl_f, alu_bit_f, alu_daa_f,
           execute_cb_f, hf])
      | injection he

theorem exec3_f (c : Cpu) (m : Memory) (op : Nat) (r : Cpu × Memory × Nat)
    (hf : c.f % 16 = 0) (he : Cpu.exec3 c m op = Except.ok r) :
    (r.1).f % 16 = 0 := by
  unfold Cpu.exec3 at he
  split at he
  all_goals try simp only [] at he
  all_goals try split at he
  all_goals
    first
      | (injection he with h2; subst h2;
         simp only [set_flags_f, set_af_f, set_bc_f, set_de_f, set_hl_f,
           fetch_byte_f, fetch_word_f, pop_f, push_f, set_reg_f,
           alu_add_f, alu_adc_f, alu_sub_f, alu_sbc_f, alu_and_f, alu_xor_f,
           alu_or_f, alu_cp_f, alu_add_sp_f, alu_rlc_f, alu_rrc_f, alu_rl_f,
           alu_rr_f, alu_sla_f, alu_sra_f, alu_swap_f, alu_srl_f, chain2_f,
           chain3_f, alu_inc_f, alu_dec_f, alu_add_hl_f, alu_bit_f, alu_daa_f,
           execute_cb_f, hf])
      | injection he

theorem exec4_f (c : Cpu) (m : Memory) (op : Nat) (r : Cpu × Memory × Nat)
    (hf : c.f % 16 = 0) (he : Cpu.exec4 c m op = Except.ok r) :
    (r.1).f % 16 = 0 := by
  unfold Cpu.exec4 at he
  split at he
  all_goals try simp only [] at he
  all_goals try split at he
  all_goals
    first
      | (injection he with h2; subst h2;
         simp only [set_flags_f, set_af_f, set_bc_f, set_de_f, set_hl_f,
           fetch_byte_f, fetch_word_f, pop_f, push_f, set_reg_f,
           alu_add_f, alu_adc_f, alu_sub_f, alu_sbc_f, alu_and_f, alu_xor_f,
           alu_or_f, alu_cp_f, alu_add_sp_f, alu_rlc_f, alu_rrc_f, alu_rl_f,
           alu_rr_f, alu_sla_f, alu_sra_f, alu_swap_f, alu_srl_f, chain2_f,
           chain3_f, alu_inc_f, alu_dec_f, alu_add_hl_f, alu_bit_f, alu_daa_f,
           execute_cb_f, hf])
      | injection he

theorem exec5_f (c : Cpu) (m : Memory) (op : Nat) (r : Cpu × Memory × Nat)
    (hf : c.f % 16 = 0) (he : Cpu.exec5 c m op = Except.ok r) :
    (r.1).f % 16 = 0 := by
  unfold Cpu.exec5 at he
  split at he
  all_goals try simp only [] at he
  all_goals try split at he
  all_goals
    first
      | (injection he with h2; subst h2;
         simp only [set_flags_f, set_af_f, set_bc_f, set_de_f, set_hl_f,
           fetch_byte_f, fetch_word_f, pop_f, push_f, set_reg_f,
           alu_add_f, alu_adc_f, alu_sub_f, alu_sbc_f, alu_and_f, alu_xor_f,
           alu_or_f, alu_cp_f, alu_add_sp_f, alu_rlc_f, alu_rrc_f, alu_rl_f,
           alu_rr_f, alu_sla_f, alu_sra_f, alu_swap_f, alu_srl_f, chain2_f,
           chain3_f, alu_inc_f, alu_dec_f, alu_add_hl_f, alu_bit_f, alu_daa_f,
           execute_cb_f, hf])
      | injection he

theorem exec6_f (c : Cpu) (m : Memory) (op : Nat) (r : Cpu × Memory × Nat)
    (hf : c.f % 16 = 0) (he : Cpu.exec6 c m op = Except.ok r) :
    (r.1).f % 16 = 0 := by
  unfold Cpu.exec6 at he
  split at he
  all_goals try simp only [] at he
  all_goals try split at he
  all_goals
    first
      | (injection he with h2; subst h2;
         simp only [set_flags_f, set_af_f, set_bc_f, set_de_f, set_hl_f,
           fetch_byte_f, fetch_word_f, pop_f, push_f, set_reg_f,
           alu_add_f, alu_adc_f, alu_sub_f, alu_sbc_f, alu_and_f, alu_xor_f,
           alu_or_f, alu_cp_f, alu_add_sp_f, alu_rlc_f, alu_rrc_f, alu_rl_f,
           alu_rr_f, alu_sla_f, alu_sra_f, alu_swap_f, alu_srl_f, chain2_f,
           chain3_f, alu_inc_f, alu_dec_f, alu_add_hl_f, alu_bit_f, alu_daa_f,
           execute_cb_f, hf])
      | injection he

theorem exec7_f (c : Cpu) (m : Memory) (op : Nat) (r : Cpu × Memory × Nat)
    (hf : c.f % 16 = 0) (he : Cpu.exec7 c m op = Except.ok r) :
    (r.1).f % 16 = 0 := by
  unfold Cpu.exec7 at he
  split at he
  all_goals try simp only [] at he
  all_goals try split at he
  all_goals
    first
      | (injection he with h2; subst h2;
         simp only [set_flags_f, set_af_f, set_bc_f, set_de_f, set_hl_f,
           fetch_byte_f, fetch_word_f, pop_f, push_f, set_reg_f,
           alu_add_f, alu_adc_f, alu_sub_f, alu_sbc_f, alu_and_f, alu_xor_f,
           alu_or_f, alu_cp_f, alu_add_sp_f, alu_rlc_f, alu_rrc_f, alu_rl_f,
           alu_rr_f, alu_sla_f, alu_sra_f, alu_swap_f, alu_srl_f, chain2_f,
           chain3_f, alu_inc_f, alu_dec_f, alu_add_hl_f, alu_bit_f, alu_daa_f,
           execute_cb_f, hf])
      | injection he

theorem exec8_f (c : Cpu) (m : Memory) (op : Nat) (r : Cpu × Memory × Nat)
    (hf : c.f % 16 = 0) (he : Cpu.exec8 c m op = Except.ok r) :
    (r.1).f % 16 = 0 := by
  unfold Cpu.exec8 at he
  split at he
  all_goals try simp only [] at he
  all_goals try split at he
  all_goals
    first
      | (injection he with h2; subst h2;
         simp only [set_flags_f, set_af_f, set_bc_f, set_de_f, set_hl_f,
           fetch_byte_f, fetch_word_f, pop_f, push_f, set_reg_f,
           alu_add_f, alu_adc_f, alu_sub_f, alu_sbc_f, alu_and_f, alu_xor_f,
           alu_or_f, alu_cp_f, alu_add_sp_f, alu_rlc_f, alu_rrc_f, alu_rl_f,
           alu_rr_f, alu_sla_f, alu_sra_f, alu_swap_f, alu_srl_f, chain2_f,
           chain3_f, alu_inc_f, alu_dec_f, alu_add_hl_f, alu_bit_f, alu_daa_f,
           execute_cb_f, hf])
      | injection he

theorem exec9_f (c : Cpu) (m : Memory) (op : Nat) (r : Cpu × Memory × Nat)
    (hf : c.f % 16 = 0) (he : Cpu.exec9 c m op = Except.ok r) :
    (r.1).f % 16 = 0 := by
  unfold Cpu.exec9 at he
  split at he
  all_goals try simp only [] at he
  all_goals try split at he
  all_goals
    first
      | (injection he with h2; subst h2;
         simp only [set_flags_f, set_af_f, set_bc_f, set_de_f, set_hl_f,
           fetch_byte_f, fetch_word_f, pop_f, push_f, set_reg_f,
           alu_add_f, alu_adc_f, alu_sub_f, alu_sbc_f, alu_and_f, alu_xor_f,
           alu_or_f, alu_cp_f, alu_add_sp_f, alu_rlc_f, alu_rrc_f, alu_rl_f,
           alu_rr_f, alu_sla_f, alu_sra_f, alu_swap_f, alu_srl_f, chain2_f,
           chain3_f, alu_inc_f, alu_dec_f, alu_add_hl_f, alu_bit_f, alu_daa_f,
           execute_cb_f, hf])
      | injection he

theorem exec10_f (c : Cpu) (m : Memory) (op : Nat) (r : Cpu × Memory × Nat)
    (hf : c.f % 16 = 0) (he : Cpu.exec10 c m op = Except.ok r) :
    (r.1).f % 16 = 0 := by
  unfold Cpu.exec10 at he
  split at he
  all_goals try simp only [] at he
  all_goals try split at he
  all_goals
    first
      | (injection he with h2; subst h2;
         simp only [set_flags_f, set_af_f, set_bc_f, set_de_f, set_hl_f,
           fetch_byte_f, fetch_word_f, pop_f, push_f, set_reg_f,
           alu_add_f, alu_adc_f, alu_sub_f, alu_sbc_f, alu_and_f, alu_xor_f,
           alu_or_f, alu_cp_f, alu_add_sp_f, alu_rlc_f, alu_rrc_f, alu_rl_f,
           alu_rr_f, alu_sla_f, alu_sra_f, alu_swap_f, alu_srl_f, chain2_f,
           chain3_f, alu_inc_f, alu_dec_f, alu_add_hl_f, alu_bit_f, alu_daa_f,
           execute_cb_f, hf])
      | injection he

theorem exec11_f (c : Cpu) (m : Memory) (op : Nat) (r : Cpu × Memory × Nat)
    (hf : c.f % 16 = 0) (he : Cpu.exec11 c m op = Except.ok r) :
    (r.1).f % 16 = 0 := by
  unfold Cpu.exec11 at he
  split at he
  all_goals try simp only [] at he
  all_goals try split at he
  all_goals
    first
      | (injection he with h2; subst h2;
         simp only [set_flags_f, set_af_f, set_bc_f, set_de_f, set_hl_f,
           fetch_byte_f, fetch_word_f, pop_f, push_f, set_reg_f,
           alu_add_f, alu_adc_f, alu_sub_f, alu_sbc_f, alu_and_f, alu_xor_f,
           alu_or_f, alu_cp_f, alu_add_sp_f, alu_rlc_f, alu_rrc_f, alu_rl_f,
           alu_rr_f, alu_sla_f, alu_sra_f, alu_swap_f, alu_srl_f, chain2_f,
           chain3_f, alu_inc_f, alu_dec_f, alu_add_hl_f, alu_bit_f, alu_daa_f,
           execute_cb_f, hf])
      | injection he

theorem exec12_f (c : Cpu) (m : Memory) (op : Nat) (r : Cpu × Memory × Nat)
    (hf : c.f % 16 = 0) (he : Cpu.exec12 c m op = Except.ok r) :
    (r.1).f % 16 = 0 := by
  unfold Cpu.exec12 at he
  split at he
  all_goals try simp only [] at he
  all_goals try split at he
  all_goals
    first
      | (injection he with h2; subst h2;
         simp only [set_flags_f, set_af_f, set_bc_f, set_de_f, set_hl_f,
           fetch_byte_f, fetch_word_f, pop_f, push_f, set_reg_f,
           alu_add_f, alu_adc_f, alu_sub_f, alu_sbc_f, alu_and_f, alu_xor_f,
           alu_or_f, alu_cp_f, alu_add_sp_f, alu_rlc_f, alu_rrc_f, alu_rl_f,
           alu_rr_f, alu_sla_f, alu_sra_f, alu_swap_f, alu_srl_f, chain2_f,
           chain3_f, alu_inc_f, alu_dec_f, alu_add_hl_f, alu_bit_f, alu_daa_f,
           execute_cb_f, hf])
      | injection he

theorem exec13_f (c : Cpu) (m : Memory) (op : Nat) (r : Cpu × Memory × Nat)
    (hf : c.f % 16 = 0) (he : Cpu.exec13 c m op = Except.ok r) :
    (r.1).f % 16 = 0 := by
  unfold Cpu.exec13 at he
  split at he
  all_goals try simp only [] at he
  all_goals try split at he
  all_goals
    first
      | (injection he with h2; subst h2;
         simp only [set_flags_f, set_af_f, set_bc_f, set_de_f, set_hl_f,
           fetch_byte_f, fetch_word_f, pop_f, push_f, set_reg_f,
           alu_add_f, alu_adc_f, alu_sub_f, alu_sbc_f, alu_and_f, alu_xor_f,
           alu_or_f, alu_cp_f, alu_add_sp_f, alu_rlc_f, alu_rrc_f, alu_rl_f,
           alu_rr_f, alu_sla_f, alu_sra_f, alu_swap_f, alu_srl_f, chain2_f,
           chain3_f, alu_inc_f, alu_dec_f, alu_add_hl_f, alu_bit_f, alu_daa_f,
           execute_cb_f, hf])
      | injection he

theorem exec14_f (c : Cpu) (m : Memory) (op : Nat) (r : Cpu × Memory × Nat)
    (hf : c.f % 16 = 0) (he : Cpu.exec14 c m op = Except.ok r) :
    (r.1).f % 16 = 0 := by
  unfold Cpu.exec14 at he
  split at he
  all_goals try simp only [] at he
  all_goals try split at he
  all_goals
    first
      | (injection he with h2; subst h2;
         simp only [set_flags_f, set_af_f, set_bc_f, set_de_f, set_hl_f,
           fetch_byte_f, fetch_word_f, pop_f, push_f, set_reg_f,
           alu_add_f, alu_adc_f, alu_sub_f, alu_sbc_f, alu_and_f, alu_xor_f,
           alu_or_f, alu_cp_f, alu_add_sp_f, alu_rlc_f, alu_rrc_f, alu_rl_f,
           alu_rr_f, alu_sla_f, alu_sra_f, alu_swap_f, alu_srl_f, chain2_f,
           chain3_f, alu_inc_f, alu_dec_f, alu_add_hl_f, alu_bit_f, alu_daa_f,
           execute_cb_f, hf])
      | injection he

theorem exec15_f (c : Cpu) (m : Memory) (op : Nat) (r : Cpu × Memory × Nat)
    (hf : c.f % 16 = 0) (he : Cpu.exec15 c m op = Except.ok r) :
    (r.1).f % 16 = 0 := by
  unfold Cpu.exec15 at he
  split at he
  all_goals try simp only [] at he
  all_goals try split at he
  all_goals
    first
      | (injection he with h2; subst h2;
         simp only [set_flags_f, set_af_f, set_bc_f, set_de_f, set_hl_f,
           fetch_byte_f, fetch_word_f, pop_f, push_f, set_reg_f,
           alu_add_f, alu_adc_f, alu_sub_f, alu_sbc_f, alu_and_f, alu_xor_f,
           alu_or_f, alu_cp_f, alu_add_sp_f, alu_rlc_f, alu_rrc_f, alu_rl_f,
           alu_rr_f, alu_sla_f, alu_sra_f, alu_swap_f, alu_srl_f, chain2_f,
           chain3_f, alu_inc_f, alu_dec_f, alu_add_hl_f, alu_bit_f, alu_daa_f,
           execute_cb_f, hf])
      | injection he

theorem exec_f (c : Cpu) (m : Memory) (op : Nat) (r : Cpu × Memory × Nat)
    (hf : c.f % 16 = 0) (he : Cpu.exec c m op = Except.ok r) :
    (r.1).f % 16 = 0 := by
  unfold Cpu.exec at he
  split at he
  all_goals
    first
      | injection he
      | exact exec0_f _ _ _ _ hf he
      | exact exec1_f _ _ _ _ hf he
      | exact exec2_f _ _ _ _ hf he
      | exact exec3_f _ _ _ _ hf he
      | exact exec4_f _ _ _ _ hf he
      | exact exec5_f _ _ _ _ hf he
      | exact exec6_f _ _ _ _ hf he
      | exact exec7_f _ _ _ _ hf he
      | exact exec8_f _ _ _ _ hf he
      | exact exec9_f _ _ _ _ hf he
      | exact exec10_f _ _ _ _ hf he
      | exact exec11_f _ _ _ _ hf he
      | exact exec12_f _ _ _ _ hf he
      | exact exec13_f _ _ _ _ hf he
      | exact exec14_f _ _ _ _ hf he
      | exact exec15_f _ _ _ _ hf he

theorem step_f (c : Cpu) (m : Memory) (r : Cpu × Memory × Nat)
    (hf : c.f % 16 = 0) (he : Cpu.step c m = Except.ok r) :
    (r.1).f % 16 = 0 := by
  unfold Cpu.step at he
  simp only [] at he
  split at he <;> split at he
  all_goals
    first
      | (injection he with h2; subst h2; simpa using hf)
      | (refine exec_f _ _ _ _ ?_ he; rw [fetch_byte_f]; simpa using hf)

@[simp] theorem fetch_byte_fst (c : Cpu) (m : Memory) :
    (c.fetch_byte m).1 = m.read_byte c.pc := rfl

theorem handle_interrupts_f (c : Cpu) (m : Memory) :
    ((handle_interrupts c m).1).f = c.f := by
  simp only [handle_interrupts]
  split_ifs <;> rfl

/-- C7: the low nibble of the F register is zero in every reachable CPU
state: it is zero in the power-on state and in the post-boot reset state,
a Cpu::step from any state satisfying it re-establishes it, interrupt
dispatch leaves F untouched, set_af masks the low nibble away for every
16-bit value, and in particular POP AF (opcode 0xF1) yields a zero low
nibble from any stack contents. -/
theorem f_low_nibble_invariant :
    Cpu.new.f % 16 = 0 ∧ Cpu.reset.f % 16 = 0 ∧
    (∀ (c : Cpu) (m : Memory) (r : Cpu × Memory × Nat),
      c.f % 16 = 0 → Cpu.step c m = Except.ok r → (r.1).f % 16 = 0) ∧
    (∀ (c : Cpu) (m : Memory), ((handle_interrupts c m).1).f = c.f) ∧
    (∀ (c : Cpu) (v : Nat), (c.set_af v).f % 16 = 0) ∧
    (∀ (c : Cpu) (m : Memory) (r : Cpu × Memory × Nat),
      Cpu.exec c m 0xF1 = Except.ok r → (r.1).f % 16 = 0) := by
  refine ⟨by decide, by decide, step_f, handle_interrupts_f, set_af_f, ?_⟩
  intro c m r he
  have h : Cpu.exec c m 0xF1 =
      Except.ok ((c.pop m).2.set_af (c.pop m).1, m, 12) := rfl
  rw [h] at he
  injection he with h2
  subst h2
  exact set_af_f _ _

def f7Mem : Memory := { Memory.new with rom := [0x00] }

theorem f_low_nibble_invariant_witness :
    ({ Cpu.new with pc := 1 } : Cpu).f % 16 = 0 :=
  f_low_nibble_invariant.2.2.1 Cpu.new f7Mem
    ({ Cpu.new with pc := 1 }, f7Mem, 4) (by decide) rfl

/-- C9: from any non-halted CPU state whose next opcode byte is one of
the eleven illegal opcodes, Cpu::step halts execution with a diagnostic
(an Except.error in this embedding) instead of completing as a NOP. -/
theorem illegal_opcode_halts (c : Cpu) (m : Memory) (hh : c.halted = false)
    (hop : m.read_byte c.pc ∈ ([0xD3, 0xDB, 0xDD, 0xE3, 0xE4, 0xEB, 0xEC,
      0xED, 0xF4, 0xFC, 0xFD] : List Nat)) :
    ∃ msg, Cpu.step c m = Except.error msg := by
  simp only [List.mem_cons, List.not_mem_nil, or_false] at hop
  unfold Cpu.step
  by_cases hp : c.ime_pending <;>
    simp [hp, hh] <;>
    rcases hop with h | h | h | h | h | h | h | h | h | h | h <;>
    rw [h] <;> exact ⟨_, rfl⟩

def c9Mem : Memory := { Memory.new with rom := [0xD3] }

theorem illegal_opcode_halts_witness :
    ({ Cpu.new with pc := 0 } : Cpu).halted = false ∧
    c9Mem.read_byte ({ Cpu.new with pc := 0 } : Cpu).pc ∈
      ([0xD3, 0xDB, 0xDD, 0xE3, 0xE4, 0xEB, 0xEC, 0xED, 0xF4, 0xFC,
        0xFD] : List Nat) ∧
    ∃ msg, Cpu.step { Cpu.new with pc := 0 } c9Mem = Except.error msg :=
  ⟨rfl, by decide,
   illegal_opcode_halts { Cpu.new with pc := 0 } c9Mem rfl (by decide)⟩

/-! ## PPU (ppu.rs) -/

/-- PPU mode, mirroring enum Mode in ppu.rs. -/
inductive PpuMode where
  | hblank
  | vblank
  | oamScan
  | drawing
deriving DecidableEq, Repr

/-- The numeric value of a mode (Mode as u8 in Ppu::update_stat). -/
def PpuMode.toNat : PpuMode → Nat
  | PpuMode.hblank => 0
  | PpuMode.vblank => 1
  | PpuMode.oamScan => 2
  | PpuMode.drawing => 3

/-- Sprite attributes, mirroring struct Sprite in ppu.rs. -/
structure Sprite where
  y : Nat
  x : Nat
  tile : Nat
  flags : Nat
deriving DecidableEq, Repr

def Sprite.priority (s : Sprite) : Bool := s.flags &&& 0x80 != 0

def Sprite.y_flip (s : Sprite) : Bool := s.flags &&& 0x40 != 0

def Sprite.x_flip (s : Sprite) : Bool := s.flags &&& 0x20 != 0

def Sprite.palette (s : Sprite) : Bool := s.flags &&& 0x10 != 0

/-- The PPU state, mirroring struct Ppu in ppu.rs; the 160 x 144
framebuffer array becomes a function from pixel indices to colors. -/
structure Ppu where
  mode : PpuMode
  dots : Nat
  framebuffer : Nat → Nat
  frame_ready : Bool
  scanline_sprites : List Sprite
  window_line : Nat
  window_triggered : Bool
  mode_3_length : Nat
  stat_interrupt_line : Bool
  prev_stat_conditions : Bool
  render_x : Nat
  bg_fifo : Nat
  sprite_fifo : Nat
  fifo_count : Nat

/-- Ppu::new. -/
def Ppu.new : Ppu :=
  { mode := PpuMode.oamScan, dots := 0, framebuffer := fun _ => 0
    frame_ready := false, scanline_sprites := [], window_line := 0
    window_triggered := false, mode_3_length := 172
    stat_interrupt_line := false, prev_stat_conditions := false
    render_x := 0, bg_fifo := 0, sprite_fifo := 0, fifo_count := 0 }

/-- The OAM scan loop of Ppu::scan_oam: visit sprite slots i, i+1, ...
while fuel remains, collecting the sprites that overlap scanline ly
(u8 comparisons, wrapping_sub 16 is plus 240 mod 256), and stop as
soon as ten sprites are collected. -/
def scan_oam_go (m : Memory) (ly h : Nat) :
    Nat → Nat → List Sprite → List Sprite
  | _, 0, acc => acc
  | i, fuel + 1, acc =>
      let addr := 0xFE00 + i * 4
      let y := m.data addr
      let x := m.data (addr + 1)
      let tile := m.data (addr + 2)
      let flags := m.data (addr + 3)
      let sprite_y := (y + 240) % 256
      if sprite_y ≤ ly ∧ ly < (sprite_y + h) % 256 then
        let acc2 := acc ++ [⟨y, x, tile, flags⟩]
        if 10 ≤ acc2.length then acc2
        else scan_oam_go m ly h (i + 1) fuel acc2
      else scan_oam_go m ly h (i + 1) fuel acc

/-- Stable insertion by sprite x coordinate: the new sprite goes in
front of the first element with an x that is not smaller.  Used to
model Vec::sort_by with a.x.cmp(b.x), which is a stable sort. -/
def insertSprite (s : Sprite) : List Sprite → List Sprite
  | [] => [s]
  | t :: ts => if t.x < s.x then t :: insertSprite s ts else s :: t :: ts

/-- Stable insertion sort by sprite x coordinate. -/
def sortSprites : List Sprite → List Sprite
  | [] => []
  | s :: rest => insertSprite s (sortSprites rest)

/-- Ppu::scan_oam - collect up to ten sprites overlapping scanline ly
from the forty OAM slots and sort them by x. -/
def Ppu.scan_oam (p : Ppu) (m : Memory) (ly : Nat) : Ppu :=
  let lcdc := m.data 0xFF40
  let sprite_height := if lcdc &&& 0x04 ≠ 0 then 16 else 8
  { p with scanline_sprites :=
      sortSprites (scan_oam_go m ly sprite_height 0 40 []) }

/-- Ppu::calculate_mode_3_length - 172 base dots plus the SCX fine
scroll penalty, six dots per scanline sprite and six dots for a
visible window, clamped to 289. -/
def Ppu.calculate_mode_3_length (p : Ppu) (m : Memory) (ly : Nat) : Nat :=
  let lcdc := m.data 0xFF40
  let scx := m.data 0xFF43
  let wy := m.data 0xFF4A
  let wx := m.data 0xFF4B
  let length := 172 + scx % 8 + p.scanline_sprites.length * 6
  let length := if lcdc &&& 0x20 ≠ 0 ∧ wy ≤ ly ∧ wx ≤ 166 then length + 6
    else length
  min length 289

/-- Ppu::handle_stat_interrupt - request the LCD STAT interrupt
(bit 1 of IF) on a rising edge of the STAT conditions, with the
interrupt-line block against duplicates. -/
def Ppu.handle_stat_interrupt (p : Ppu) (m : Memory) : Ppu × Memory :=
  let stat := m.data 0xFF41
  let ly := m.data 0xFF44
  let lyc := m.data 0xFF45
  let mode_0_condition := (stat &&& 0x08 != 0) && (p.mode == PpuMode.hblank)
  let mode_1_condition := (stat &&& 0x10 != 0) && (p.mode == PpuMode.vblank)
  let mode_2_condition := (stat &&& 0x20 != 0) && (p.mode == PpuMode.oamScan)
  let lyc_condition := (stat &&& 0x40 != 0) && (ly == lyc)
  let current_conditions := mode_0_condition || mode_1_condition ||
    mode_2_condition || lyc_condition
  let fire := current_conditions && !p.prev_stat_conditions &&
    !p.stat_interrupt_line
  let stat_line := if fire then true
    else if !current_conditions then false else p.stat_interrupt_line
  ({ p with stat_interrupt_line := stat_line
            prev_stat_conditions := current_conditions },
   if fire then m.request_interrupt 0x02 else m)

/-- Ppu::update_stat - write the mode bits and the coincidence flag
into STAT. -/
def Ppu.update_stat (p : Ppu) (m : Memory) : Memory :=
  let ly := m.data 0xFF44
  let lyc := m.data 0xFF45
  let stat := (m.data 0xFF41 &&& 0xF8) ||| p.mode.toNat
  let stat := if ly = lyc then stat ||| 0x04 else stat
  m.setData 0xFF41 stat

/-- Ppu::check_lyc - set or clear the coincidence flag (the byte
complement of 0x04 is 0xFB). -/
def Ppu.check_lyc (_p : Ppu) (m : Memory) (ly : Nat) : Memory :=
  let lyc := m.data 0xFF45
  if ly = lyc then m.setData 0xFF41 (m.data 0xFF41 ||| 0x04)
  else m.setData 0xFF41 (m.data 0xFF41 &&& 0xFB)

/-- Background and window tile-data address resolution: signed
addressing treats the tile index as an i8 offset into the 0x8800
table (the i32 arithmetic of the Rust code never exceeds u16 range
for the table bases 0x8000 and 0x8800). -/
def tileAddr (tile_data tile_idx : Nat) (signed_addressing : Bool) : Nat :=
  if signed_addressing then
    if tile_idx < 128 then tile_data + (tile_idx + 128) * 16
    else tile_data + (tile_idx - 128) * 16
  else tile_data + tile_idx * 16

/-- One background pixel of Ppu::render_background (the loop body for
a given screen x). -/
def bgPixelColor (m : Memory) (scx y tile_row tile_map tile_data : Nat)
    (signed_addressing : Bool) (bgp screen_x : Nat) : Nat :=
  let x := (screen_x + scx) % 256
  let tile_col := x / 8
  let map_addr := tile_map + tile_row * 32 + tile_col
  let tile_idx := m.data map_addr
  let taddr := tileAddr tile_data tile_idx signed_addressing
  let tile_y := y % 8
  let tile_x := 7 - x % 8
  let addr := taddr + tile_y * 2
  let low := m.data addr
  let high := m.data (addr + 1)
  let color_bit := 1 <<< tile_x
  let color_idx := ((high &&& color_bit) >>> tile_x <<< 1) |||
    ((low &&& color_bit) >>> tile_x)
  (bgp >>> (color_idx * 2)) &&& 0x03

/-- Ppu::render_background - write the 160 background pixels of line
ly; each loop iteration writes one distinct framebuffer index, so the
loop is a pointwise function update. -/
def Ppu.render_background (p : Ppu) (m : Memory)
    (ly lcdc bgp line_offset : Nat) : Ppu :=
  let scy := m.data 0xFF42
  let scx := m.data 0xFF43
  let tile_map := if lcdc &&& 0x08 ≠ 0 then 0x9C00 else 0x9800
  let tile_data := if lcdc &&& 0x10 ≠ 0 then 0x8000 else 0x8800
  let signed_addressing := lcdc &&& 0x10 == 0
  let y := (ly + scy) % 256
  let tile_row := y / 8
  { p with framebuffer := (fun idx =>
      if line_offset ≤ idx ∧ idx < line_offset + 160 then
        bgPixelColor m scx y tile_row tile_map tile_data
          signed_addressing bgp (idx - line_offset)
      else p.framebuffer idx) }

/-- One window pixel of Ppu::render_window (the loop body for the
window-relative column x). -/
def winPixelColor (m : Memory) (window_line tile_row tile_map tile_data : Nat)
    (signed_addressing : Bool) (bgp x : Nat) : Nat :=
  let tile_col := x / 8
  let map_addr := tile_map + tile_row * 32 + tile_col
  let tile_idx := m.data map_addr
  let taddr := tileAddr tile_data tile_idx signed_addressing
  let tile_y := window_line % 8
  let tile_x := 7 - x % 8
  let addr := taddr + tile_y * 2
  let low := m.data addr
  let high := m.data (addr + 1)
  let color_bit := 1 <<< tile_x
  let color_idx := ((high &&& color_bit) >>> tile_x <<< 1) |||
    ((low &&& color_bit) >>> tile_x)
  (bgp >>> (color_idx * 2)) &&& 0x03

/-- Ppu::render_window - write the window pixels from column wx - 7
(saturating) onward and bump the internal window line counter; a
no-op when the window has not reached this line or wx is past 166. -/
def Ppu.render_window (p : Ppu) (m : Memory)
    (ly lcdc bgp line_offset : Nat) : Ppu :=
  let wy := m.data 0xFF4A
  let wx := m.data 0xFF4B
  if ly < wy ∨ 166 < wx then p
  else
    let tile_map := if lcdc &&& 0x40 ≠ 0 then 0x9C00 else 0x9800
    let tile_data := if lcdc &&& 0x10 ≠ 0 then 0x8000 else 0x8800
    let signed_addressing := lcdc &&& 0x10 == 0
    let window_x_start := wx - 7
    let tile_row := p.window_line / 8
    { p with
      framebuffer := (fun idx =>
        if line_offset + window_x_start ≤ idx ∧ idx < line_offset + 160 then
          winPixelColor m p.window_line tile_row tile_map tile_data
            signed_addressing bgp (idx - line_offset - window_x_start)
        else p.framebuffer idx)
      window_line := p.window_line + 1
      window_triggered := true }

/-- One sprite row blit of Ppu::render_sprites: eight pixels applied
left to right onto the framebuffer, honoring off-screen clipping,
color-0 transparency and background priority (wrapping u8 arithmetic
becomes plus 248 or plus 240 mod 256). -/
def spriteBlit (m : Memory) (sprite_height obp0 obp1 line_offset ly : Nat)
    (fb : Nat → Nat) (s : Sprite) : Nat → Nat :=
  let palette := if s.palette then obp1 else obp0
  let sprite_x := (s.x + 248) % 256
  let sprite_y := (s.y + 240) % 256
  let tile_y0 := (ly + 256 - sprite_y) % 256
  let tile_y := if s.y_flip then sprite_height - 1 - tile_y0 else tile_y0
  let tile := if sprite_height = 16 then s.tile &&& 0xFE else s.tile
  let tile_addr := 0x8000 + tile * 16 + tile_y * 2
  let low := m.data tile_addr
  let high := m.data (tile_addr + 1)
  (List.range 8).foldl (fun fb tile_x =>
    let screen_x := (sprite_x + tile_x) % 256
    if 160 ≤ screen_x then fb
    else
      let bit := if s.x_flip then tile_x else 7 - tile_x
      let color_bit := 1 <<< bit
      let color_idx := ((high &&& color_bit) >>> bit <<< 1) |||
        ((low &&& color_bit) >>> bit)
      if color_idx = 0 then fb
      else
        let bg_color := fb (line_offset + screen_x)
        if s.priority ∧ bg_color ≠ 0 then fb
        else fun idx => if idx = line_offset + screen_x then
          (palette >>> (color_idx * 2)) &&& 0x03 else fb idx) fb

/-- Ppu::render_sprites - blit the scanline sprites in reverse order,
so the sprite with the lowest x is drawn last and wins. -/
def Ppu.render_sprites (p : Ppu) (m : Memory)
    (ly lcdc obp0 obp1 line_offset : Nat) : Ppu :=
  let sprite_height := if lcdc &&& 0x04 ≠ 0 then 16 else 8
  { p with framebuffer :=
      (p.scanline_sprites.reverse.foldl
        (fun fb s => spriteBlit m sprite_height obp0 obp1 line_offset ly fb s)
        p.framebuffer) }

/-- Ppu::render_scanline - background (or color-0 fill), then window,
then sprites, gated by the LCDC enable bits. -/
def Ppu.render_scanline (p : Ppu) (m : Memory) (ly : Nat) : Ppu :=
  let lcdc := m.data 0xFF40
  let bgp := m.data 0xFF47
  let obp0 := m.data 0xFF48
  let obp1 := m.data 0xFF49
  let line_offset := ly * 160
  let bg_enable := lcdc &&& 0x01 ≠ 0
  let p1 := if bg_enable then p.render_background m ly lcdc bgp line_offset
    else { p with framebuffer := (fun idx =>
      if line_offset ≤ idx ∧ idx < line_offset + 160 then 0
      else p.framebuffer idx) }
  let p2 := if bg_enable ∧ lcdc &&& 0x20 ≠ 0 then
    p1.render_window m ly lcdc bgp line_offset else p1
  if lcdc &&& 0x02 ≠ 0 then p2.render_sprites m ly lcdc obp0 obp1 line_offset
  else p2

/-- Ppu::tick_single - advance one dot: increment the dot counter, run
the mode state machine (enter Drawing after 80 OAM dots, HBlank after
mode_3_length Drawing dots, the next line after 456 - 80 -
mode_3_length HBlank dots with VBlank past line 143, and restart a
frame after ten VBlank lines), then run STAT edge detection.  Each
Rust branch collects its field writes into one record update; the u8
LY increment wraps mod 256. -/
def Ppu.tick_single (p : Ppu) (m : Memory) : Ppu × Memory :=
  let dots := p.dots + 1
  let ly := m.data 0xFF44
  match p.mode with
  | PpuMode.oamScan =>
      if 80 ≤ dots then
        let ps := p.scan_oam m ly
        let p2 := { ps with mode_3_length := ps.calculate_mode_3_length m ly
                            dots := 0, mode := PpuMode.drawing, render_x := 0 }
        p2.handle_stat_interrupt (p2.update_stat m)
      else ({ p with dots := dots }).handle_stat_interrupt m
  | PpuMode.drawing =>
      if p.mode_3_length ≤ dots then
        let pr := p.render_scanline m ly
        let p2 := { pr with dots := 0, mode := PpuMode.hblank }
        p2.handle_stat_interrupt (p2.update_stat m)
      else ({ p with dots := dots }).handle_stat_interrupt m
  | PpuMode.hblank =>
      if 456 - 80 - p.mode_3_length ≤ dots then
        let new_ly := (ly + 1) % 256
        let m2 := m.setData 0xFF44 new_ly
        if 144 ≤ new_ly then
          let p2 := { p with dots := 0, mode := PpuMode.vblank
                             frame_ready := true, window_line := 0
                             window_triggered := false }
          let m3 := m2.request_interrupt 0x01
          p2.handle_stat_interrupt (p2.check_lyc (p2.update_stat m3) new_ly)
        else
          let p2 := { p with dots := 0, mode := PpuMode.oamScan }
          p2.handle_stat_interrupt (p2.check_lyc (p2.update_stat m2) new_ly)
      else ({ p with dots := dots }).handle_stat_interrupt m
  | PpuMode.vblank =>
      if 456 ≤ dots then
        let new_ly := (ly + 1) % 256
        if 154 ≤ new_ly then
          let p2 := { p with dots := 0, mode := PpuMode.oamScan }
          let m2 := m.setData 0xFF44 0
          p2.handle_stat_interrupt (p2.check_lyc (p2.update_stat m2) 0)
        else
          let p2 := { p with dots := 0 }
          let m2 := m.setData 0xFF44 new_ly
          p2.handle_stat_interrupt (p2.check_lyc m2 new_ly)
      else ({ p with dots := dots }).handle_stat_interrupt m

/-- Iterate Ppu::tick_single n times (the for loop in Ppu::tick). -/
def Ppu.tickN (p : Ppu) (m : Memory) : Nat → Ppu × Memory
  | 0 => (p, m)
  | n + 1 =>
      let r := p.tick_single m
      Ppu.tickN r.1 r.2 n

/-- Ppu::tick - with the LCD disabled force HBlank, zero dots and LY
and clear the STAT mode bits; otherwise run cycles dots. -/
def Ppu.tick (p : Ppu) (m : Memory) (cycles : Nat) : Ppu × Memory :=
  let lcdc := m.data 0xFF40
  if lcdc &&& 0x80 = 0 then
    ({ p with mode := PpuMode.hblank, dots := 0 },
     (m.setData 0xFF44 0).setData 0xFF41 (m.data 0xFF41 &&& 0xFC))
  else p.tickN m cycles

/-! ## PPU line timing -/

@[simp] theorem tickN_zero (p : Ppu) (m : Memory) : Ppu.tickN p m 0 = (p, m) := rfl

@[simp] theorem tickN_succ (p : Ppu) (m : Memory) (n : Nat) :
    Ppu.tickN p m (n + 1) =
      Ppu.tickN (p.tick_single m).1 (p.tick_single m).2 n := rfl

theorem tickN_one (p : Ppu) (m : Memory) :
    Ppu.tickN p m 1 = ((p.tick_single m).1, (p.tick_single m).2) := rfl

theorem tickN_add (a b : Nat) : ∀ (p : Ppu) (m : Memory),
    Ppu.tickN p m (a + b) =
      Ppu.tickN ((Ppu.tickN p m a).1) ((Ppu.tickN p m a).2) b := by
  induction a with
  | zero => intro p m; rw [Nat.zero_add]; rfl
  | succ n ih =>
      intro p m
      rw [Nat.succ_add, tickN_succ, tickN_succ, ih]

@[simp] theorem hsi_mode (p : Ppu) (m : Memory) :
    ((p.handle_stat_interrupt m).1).mode = p.mode := rfl

@[simp] theorem hsi_dots (p : Ppu) (m : Memory) :
    ((p.handle_stat_interrupt m).1).dots = p.dots := rfl

@[simp] theorem hsi_m3 (p : Ppu) (m : Memory) :
    ((p.handle_stat_interrupt m).1).mode_3_length = p.mode_3_length := rfl

theorem hsi_data (p : Ppu) (m : Memory) (a : Nat) (ha : a ≠ 0xFF0F) :
    ((p.handle_stat_interrupt m).2).data a = m.data a := by
  simp only [Ppu.handle_stat_interrupt]
  split
  · simp [Memory.request_interrupt, ha]
  · rfl

theorem update_stat_data (p : Ppu) (m : Memory) (a : Nat) (ha : a ≠ 0xFF41) :
    (p.update_stat m).data a = m.data a := by
  simp [Ppu.update_stat, ha]

theorem check_lyc_data (p : Ppu) (m : Memory) (ly a : Nat) (ha : a ≠ 0xFF41) :
    (p.check_lyc m ly).data a = m.data a := by
  simp only [Ppu.check_lyc]
  split <;> simp [ha]

@[simp] theorem render_background_m3 (p : Ppu) (m : Memory)
    (ly lcdc bgp off : Nat) :
    (p.render_background m ly lcdc bgp off).mode_3_length = p.mode_3_length := rfl

@[simp] theorem render_window_m3 (p : Ppu) (m : Memory)
    (ly lcdc bgp off : Nat) :
    (p.render_window m ly lcdc bgp off).mode_3_length = p.mode_3_length := by
  simp only [Ppu.render_window]
  split <;> rfl

@[simp] theorem render_sprites_m3 (p : Ppu) (m : Memory)
    (ly lcdc obp0 obp1 off : Nat) :
    (p.render_sprites m ly lcdc obp0 obp1 off).mode_3_length =
      p.mode_3_length := rfl

@[simp] theorem render_scanline_m3 (p : Ppu) (m : Memory) (ly : Nat) :
    (p.render_scanline m ly).mode_3_length = p.mode_3_length := by
  simp only [Ppu.render_scanline]
  split_ifs <;> simp

theorem calc_m3_lower (p : Ppu) (m : Memory) (ly : Nat) :
    172 ≤ p.calculate_mode_3_length m ly := by
  simp only [Ppu.calculate_mode_3_length]
  rw [Nat.le_min]
  refine ⟨?_, by norm_num⟩
  split_ifs <;> omega

theorem calc_m3_upper (p : Ppu) (m : Memory) (ly : Nat) :
    p.calculate_mode_3_length m ly ≤ 289 := by
  simp only [Ppu.calculate_mode_3_length]
  exact Nat.min_le_right _ _

theorem tick_oam_mid (p : Ppu) (m : Memory) (hm : p.mode = PpuMode.oamScan)
    (hd : p.dots + 1 < 80) :
    ((p.tick_single m).1).mode = PpuMode.oamScan ∧
    ((p.tick_single m).1).dots = p.dots + 1 ∧
    ((p.tick_single m).1).mode_3_length = p.mode_3_length ∧
    ∀ a, a ≠ 0xFF0F → ((p.tick_single m).2).data a = m.data a := by
  have he : p.tick_single m =
      ({ p with dots := p.dots + 1 }).handle_stat_interrupt m := by
    simp only [Ppu.tick_single, hm]
    rw [if_neg (by omega)]
  rw [he]
  exact ⟨by simp [hm], by simp, by simp, fun a ha => hsi_data _ _ _ ha⟩

theorem tick_oam_last (p : Ppu) (m : Memory) (hm : p.mode = PpuMode.oamScan)
    (hd : p.dots + 1 = 80) :
    ((p.tick_single m).1).mode = PpuMode.drawing ∧
    ((p.tick_single m).1).dots = 0 ∧
    ((p.tick_single m).1).mode_3_length =
      (p.scan_oam m (m.data 0xFF44)).calculate_mode_3_length m
        (m.data 0xFF44) ∧
    ∀ a, a ≠ 0xFF0F → a ≠ 0xFF41 →
      ((p.tick_single m).2).data a = m.data a := by
  have he : p.tick_single m =
      (let ps := p.scan_oam m (m.data 0xFF44)
       let p2 := { ps with
         mode_3_length := ps.calculate_mode_3_length m (m.data 0xFF44)
         dots := 0, mode := PpuMode.drawing, render_x := 0 }
       p2.handle_stat_interrupt (p2.update_stat m)) := by
    simp only [Ppu.tick_single, hm]
    rw [if_pos (by omega)]
  rw [he]
  refine ⟨by simp, by simp, by simp, fun a h1 h2 => ?_⟩
  rw [hsi_data _ _ _ h1, update_stat_data _ _ _ h2]

theorem tick_drawing_mid (p : Ppu) (m : Memory)
    (hm : p.mode = PpuMode.drawing) (hd : p.dots + 1 < p.mode_3_length) :
    ((p.tick_single m).1).mode = PpuMode.drawing ∧
    ((p.tick_single m).1).dots = p.dots + 1 ∧
    ((p.tick_single m).1).mode_3_length = p.mode_3_length ∧
    ∀ a, a ≠ 0xFF0F → ((p.tick_single m).2).data a = m.data a := by
  have he : p.tick_single m =
      ({ p with dots := p.dots + 1 }).handle_stat_interrupt m := by
    simp only [Ppu.tick_single, hm]
    rw [if_neg (by omega)]
  rw [he]
  exact ⟨by simp [hm], by simp, by simp, fun a ha => hsi_data _ _ _ ha⟩

theorem tick_drawing_last (p : Ppu) (m : Memory)
    (hm : p.mode = PpuMode.drawing) (hd : p.dots + 1 = p.mode_3_length) :
    ((p.tick_single m).1).mode = PpuMode.hblank ∧
    ((p.tick_single m).1).dots = 0 ∧
    ((p.tick_single m).1).mode_3_length = p.mode_3_length ∧
    ∀ a, a ≠ 0xFF0F → a ≠ 0xFF41 →
      ((p.tick_single m).2).data a = m.data a := by
  have he : p.tick_single m =
      (let pr := p.render_scanline m (m.data 0xFF44)
       let p2 := { pr with dots := 0, mode := PpuMode.hblank }
       p2.handle_stat_interrupt (p2.update_stat m)) := by
    simp only [Ppu.tick_single, hm]
    rw [if_pos (by omega)]
  rw [he]
  refine ⟨by simp, by simp, by simp, fun a h1 h2 => ?_⟩
  rw [hsi_data _ _ _ h1, update_stat_data _ _ _ h2]

theorem tick_hblank_mid (p : Ppu) (m : Memory)
    (hm : p.mode = PpuMode.hblank)
    (hd : p.dots + 1 < 456 - 80 - p.mode_3_length) :
    ((p.tick_single m).1).mode = PpuMode.hblank ∧
    ((p.tick_single m).1).dots = p.dots + 1 ∧
    ((p.tick_single m).1).mode_3_length = p.mode_3_length ∧
    ∀ a, a ≠ 0xFF0F → ((p.tick_single m).2).data a = m.data a := by
  have he : p.tick_single m =
      ({ p with dots := p.dots + 1 }).handle_stat_interrupt m := by
    simp only [Ppu.tick_single, hm]
    rw [if_neg (by omega)]
  rw [he]
  exact ⟨by simp [hm], by simp, by simp, fun a ha => hsi_data _ _ _ ha⟩

theorem tick_hblank_last (p : Ppu) (m : Memory)
    (hm : p.mode = PpuMode.hblank)
    (hd : p.dots + 1 = 456 - 80 - p.mode_3_length)
    (hly : m.data 0xFF44 < 143) :
    ((p.tick_single m).1).mode = PpuMode.oamScan ∧
    ((p.tick_single m).1).dots = 0 ∧
    ((p.tick_single m).1).mode_3_length = p.mode_3_length ∧
    ((p.tick_single m).2).data 0xFF44 = m.data 0xFF44 + 1 ∧
    ∀ a, a ≠ 0xFF0F → a ≠ 0xFF41 → a ≠ 0xFF44 →
      ((p.tick_single m).2).data a = m.data a := by
  have he : p.tick_single m =
      (let p2 := { p with dots := 0, mode := PpuMode.oamScan }
       let m2 := m.setData 0xFF44 ((m.data 0xFF44 + 1) % 256)
       p2.handle_stat_interrupt
         (p2.check_lyc (p2.update_stat m2) ((m.data 0xFF44 + 1) % 256))) := by
    simp only [Ppu.tick_single, hm]
    rw [if_pos (by omega), if_neg (by omega)]
  rw [he]
  refine ⟨by simp, by simp, by simp, ?_, fun a h1 h2 h3 => ?_⟩
  · rw [hsi_data _ _ _ (by norm_num), check_lyc_data _ _ _ _ (by norm_num),
      update_stat_data _ _ _ (by norm_num)]
    simp
    omega
  · rw [hsi_data _ _ _ h1, check_lyc_data _ _ _ _ h2,
      update_stat_data _ _ _ h2]
    simp [h3]

theorem oam_phase (k : Nat) : ∀ (p : Ppu) (m : Memory),
    p.mode = PpuMode.oamScan → p.dots + k < 80 →
    ((Ppu.tickN p m k).1).mode = PpuMode.oamScan ∧
    ((Ppu.tickN p m k).1).dots = p.dots + k ∧
    ((Ppu.tickN p m k).1).mode_3_length = p.mode_3_length ∧
    ∀ a, a ≠ 0xFF0F → ((Ppu.tickN p m k).2).data a = m.data a := by
  induction k with
  | zero => intro p m hm _; exact ⟨hm, rfl, rfl, fun a _ => rfl⟩
  | succ n ih =>
      intro p m hm hd
      obtain ⟨h1, h2, h3, h4⟩ := tick_oam_mid p m hm (by omega)
      obtain ⟨A, B, C, D⟩ := ih (p.tick_single m).1 (p.tick_single m).2 h1
        (by rw [h2]; omega)
      rw [tickN_succ]
      exact ⟨A, by rw [B, h2]; omega, by rw [C, h3],
        fun a ha => (D a ha).trans (h4 a ha)⟩

theorem drawing_phase (k : Nat) : ∀ (p : Ppu) (m : Memory),
    p.mode = PpuMode.drawing → p.dots + k < p.mode_3_length →
    ((Ppu.tickN p m k).1).mode = PpuMode.drawing ∧
    ((Ppu.tickN p m k).1).dots = p.dots + k ∧
    ((Ppu.tickN p m k).1).mode_3_length = p.mode_3_length ∧
    ∀ a, a ≠ 0xFF0F → ((Ppu.tickN p m k).2).data a = m.data a := by
  induction k with
  | zero => intro p m hm _; exact ⟨hm, rfl, rfl, fun a _ => rfl⟩
  | succ n ih =>
      intro p m hm hd
      obtain ⟨h1, h2, h3, h4⟩ := tick_drawing_mid p m hm (by omega)
      obtain ⟨A, B, C, D⟩ := ih (p.tick_single m).1 (p.tick_single m).2 h1
        (by rw [h2, h3]; omega)
      rw [tickN_succ]
      exact ⟨A, by rw [B, h2]; omega, by rw [C, h3],
        fun a ha => (D a ha).trans (h4 a ha)⟩

theorem hblank_phase (k : Nat) : ∀ (p : Ppu) (m : Memory),
    p.mode = PpuMode.hblank → p.dots + k < 456 - 80 - p.mode_3_length →
    ((Ppu.tickN p m k).1).mode = PpuMode.hblank ∧
    ((Ppu.tickN p m k).1).dots = p.dots + k ∧
    ((Ppu.tickN p m k).1).mode_3_length = p.mode_3_length ∧
    ∀ a, a ≠ 0xFF0F → ((Ppu.tickN p m k).2).data a = m.data a := by
  induction k with
  | zero => intro p m hm _; exact ⟨hm, rfl, rfl, fun a _ => rfl⟩
  | succ n ih =>
      intro p m hm hd
      obtain ⟨h1, h2, h3, h4⟩ := tick_hblank_mid p m hm (by omega)
      obtain ⟨A, B, C, D⟩ := ih (p.tick_single m).1 (p.tick_single m).2 h1
        (by rw [h2, h3]; omega)
      rw [tickN_succ]
      exact ⟨A, by rw [B, h2]; omega, by rw [C, h3],
        fun a ha => (D a ha).trans (h4 a ha)⟩

/-- C3: with the LCD enabled (LCDC bit 7 set) and LY below 143,
starting a scanline in OAM scan with the dot counter at zero, the PPU
mode becomes Drawing after exactly 80 dots (never earlier), HBlank
after the computed Mode 3 length M3 further dots with 172 <= M3 <= 289,
and OAM scan again with LY incremented by exactly one after
80 + M3 + (456 - 80 - M3) = 456 dots in total. -/
theorem ppu_line_timing (p : Ppu) (m : Memory)
    (hlcdc : m.data 0xFF40 &&& 0x80 ≠ 0)
    (hmode : p.mode = PpuMode.oamScan) (hdots : p.dots = 0)
    (hly : m.data 0xFF44 < 143) :
    ∃ pA mA pB mB pC mC,
      p.tick m 80 = (pA, mA) ∧
      (∀ k, k < 80 → ((Ppu.tickN p m k).1).mode = PpuMode.oamScan) ∧
      pA.mode = PpuMode.drawing ∧
      172 ≤ pA.mode_3_length ∧ pA.mode_3_length ≤ 289 ∧
      pA.tick mA pA.mode_3_length = (pB, mB) ∧
      (∀ k, k < pA.mode_3_length →
        ((Ppu.tickN pA mA k).1).mode = PpuMode.drawing) ∧
      pB.mode = PpuMode.hblank ∧
      pB.tick mB (456 - 80 - pA.mode_3_length) = (pC, mC) ∧
      (∀ k, k < 456 - 80 - pA.mode_3_length →
        ((Ppu.tickN pB mB k).1).mode = PpuMode.hblank) ∧
      pC.mode = PpuMode.oamScan ∧
      mC.data 0xFF44 = m.data 0xFF44 + 1 ∧
      80 + pA.mode_3_length + (456 - 80 - pA.mode_3_length) = 456 := by
  -- Phase 1: 79 quiet OAM dots, then the transition dot.
  obtain ⟨hm79, hd79, hm379, hdata79⟩ := oam_phase 79 p m hmode (by omega)
  obtain ⟨hmA, hdA, hm3A, hdataA⟩ :=
    tick_oam_last (Ppu.tickN p m 79).1 (Ppu.tickN p m 79).2 hm79
      (by rw [hd79, hdots])
  have eA : (Ppu.tickN p m 80).1 =
      ((Ppu.tickN p m 79).1.tick_single (Ppu.tickN p m 79).2).1 :=
    congrArg Prod.fst (tickN_add 79 1 p m)
  have eAm : (Ppu.tickN p m 80).2 =
      ((Ppu.tickN p m 79).1.tick_single (Ppu.tickN p m 79).2).2 :=
    congrArg Prod.snd (tickN_add 79 1 p m)
  have hmodeA : (Ppu.tickN p m 80).1.mode = PpuMode.drawing := by
    rw [eA]; exact hmA
  have hdotsA : (Ppu.tickN p m 80).1.dots = 0 := by rw [eA]; exact hdA
  have hlowA : 172 ≤ (Ppu.tickN p m 80).1.mode_3_length := by
    rw [eA, hm3A]; exact calc_m3_lower _ _ _
  have hupA : (Ppu.tickN p m 80).1.mode_3_length ≤ 289 := by
    rw [eA, hm3A]; exact calc_m3_upper _ _ _
  have hdataPhA : ∀ a, a ≠ 0xFF0F → a ≠ 0xFF41 →
      (Ppu.tickN p m 80).2.data a = m.data a := by
    intro a h1 h2
    rw [eAm]
    exact (hdataA a h1 h2).trans (hdata79 a h1)
  have hlcdcA : (Ppu.tickN p m 80).2.data 0xFF40 &&& 0x80 ≠ 0 := by
    rw [hdataPhA 0xFF40 (by norm_num) (by norm_num)]; exact hlcdc
  have hlyA : (Ppu.tickN p m 80).2.data 0xFF44 = m.data 0xFF44 :=
    hdataPhA 0xFF44 (by norm_num) (by norm_num)
  have htick1 : p.tick m 80 = Ppu.tickN p m 80 := by
    simp only [Ppu.tick]
    rw [if_neg hlcdc]
  -- Phase 2: M3 - 1 quiet Drawing dots, then the transition dot.
  obtain ⟨im79, id79, im379, idata79⟩ :=
    drawing_phase ((Ppu.tickN p m 80).1.mode_3_length - 1)
      (Ppu.tickN p m 80).1 (Ppu.tickN p m 80).2 hmodeA
      (by rw [hdotsA]; omega)
  obtain ⟨imB, idB, im3B, idataB⟩ :=
    tick_drawing_last _ _ im79 (by rw [id79, im379, hdotsA]; omega)
  have hn1 : ((Ppu.tickN p m 80).1.mode_3_length - 1) + 1 =
      (Ppu.tickN p m 80).1.mode_3_length := by omega
  have eB : (Ppu.tickN (Ppu.tickN p m 80).1 (Ppu.tickN p m 80).2
        ((Ppu.tickN p m 80).1.mode_3_length)).1 =
      ((Ppu.tickN (Ppu.tickN p m 80).1 (Ppu.tickN p m 80).2
            ((Ppu.tickN p m 80).1.mode_3_length - 1)).1.tick_single
          (Ppu.tickN (Ppu.tickN p m 80).1 (Ppu.tickN p m 80).2
            ((Ppu.tickN p m 80).1.mode_3_length - 1)).2).1 := by
    conv_lhs => rw [← hn1]
    exact congrArg Prod.fst (tickN_add _ 1 _ _)
  have eBm : (Ppu.tickN (Ppu.tickN p m 80).1 (Ppu.tickN p m 80).2
        ((Ppu.tickN p m 80).1.mode_3_length)).2 =
      ((Ppu.tickN (Ppu.tickN p m 80).1 (Ppu.tickN p m 80).2
            ((Ppu.tickN p m 80).1.mode_3_length - 1)).1.tick_single
          (Ppu.tickN (Ppu.tickN p m 80).1 (Ppu.tickN p m 80).2
            ((Ppu.tickN p m 80).1.mode_3_length - 1)).2).2 := by
    conv_lhs => rw [← hn1]
    exact congrArg Prod.snd (tickN_add _ 1 _ _)
  have hmodeB : (Ppu.tickN (Ppu.tickN p m 80).1 (Ppu.tickN p m 80).2
      ((Ppu.tickN p m 80).1.mode_3_length)).1.mode = PpuMode.hblank := by
    rw [eB]; exact imB
  have hdotsB : (Ppu.tickN (Ppu.tickN p m 80).1 (Ppu.tickN p m 80).2
      ((Ppu.tickN p m 80).1.mode_3_length)).1.dots = 0 := by
    rw [eB]; exact idB
  have hm3B : (Ppu.tickN (Ppu.tickN p m 80).1 (Ppu.tickN p m 80).2
      ((Ppu.tickN p m 80).1.mode_3_length)).1.mode_3_length =
      (Ppu.tickN p m 80).1.mode_3_length := by
    rw [eB]; exact im3B.trans im379
  have hdataPhB : ∀ a, a ≠ 0xFF0F → a ≠ 0xFF41 →
      (Ppu.tickN (Ppu.tickN p m 80).1 (Ppu.tickN p m 80).2
        ((Ppu.tickN p m 80).1.mode_3_length)).2.data a =
      (Ppu.tickN p m 80).2.data a := by
    intro a h1 h2
    rw [eBm]
    exact (idataB a h1 h2).trans (idata79 a h1)
  have hlcdcB : (Ppu.tickN (Ppu.tickN p m 80).1 (Ppu.tickN p m 80).2
      ((Ppu.tickN p m 80).1.mode_3_length)).2.data 0xFF40 &&& 0x80 ≠ 0 := by
    rw [hdataPhB 0xFF40 (by norm_num) (by norm_num)]; exact hlcdcA
  have hlyB : (Ppu.tickN (Ppu.tickN p m 80).1 (Ppu.tickN p m 80).2
      ((Ppu.tickN p m 80).1.mode_3_length)).2.data 0xFF44 =
      m.data 0xFF44 := by
    rw [hdataPhB 0xFF44 (by norm_num) (by norm_num)]; exact hlyA
  have htick2 : (Ppu.tickN p m 80).1.tick (Ppu.tickN p m 80).2
      ((Ppu.tickN p m 80).1.mode_3_length) =
      Ppu.tickN (Ppu.tickN p m 80).1 (Ppu.tickN p m 80).2
        ((Ppu.tickN p m 80).1.mode_3_length) := by
    simp only [Ppu.tick]
    rw [if_neg hlcdcA]
  refine ⟨(Ppu.tickN p m 80).1, (Ppu.tickN p m 80).2,
    (Ppu.tickN (Ppu.tickN p m 80).1 (Ppu.tickN p m 80).2
      ((Ppu.tickN p m 80).1.mode_3_length)).1,
    (Ppu.tickN (Ppu.tickN p m 80).1 (Ppu.tickN p m 80).2
      ((Ppu.tickN p m 80).1.mode_3_length)).2,
    (Ppu.tickN (Ppu.tickN (Ppu.tickN p m 80).1 (Ppu.tickN p m 80).2
        ((Ppu.tickN p m 80).1.mode_3_length)).1
      (Ppu.tickN (Ppu.tickN p m 80).1 (Ppu.tickN p m 80).2
        ((Ppu.tickN p m 80).1.mode_3_length)).2
      (456 - 80 - (Ppu.tickN p m 80).1.mode_3_length)).1,
    (Ppu.tickN (Ppu.tickN (Ppu.tickN p m 80).1 (Ppu.tickN p m 80).2
        ((Ppu.tickN p m 80).1.mode_3_length)).1
      (Ppu.tickN (Ppu.tickN p m 80).1 (Ppu.tickN p m 80).2
        ((Ppu.tickN p m 80).1.mode_3_length)).2
      (456 - 80 - (Ppu.tickN p m 80).1.mode_3_length)).2,
    ?_, ?_, hmodeA, hlowA, hupA, ?_, ?_, hmodeB, ?_, ?_, ?_, ?_, ?_⟩
  · rw [htick1]
  · intro k hk
    exact (oam_phase k p m hmode (by omega)).1
  · rw [htick2]
  · intro k hk
    exact (drawing_phase k (Ppu.tickN p m 80).1 (Ppu.tickN p m 80).2 hmodeA
      (by rw [hdotsA]; omega)).1
  -- Phase 3: the HBlank stretch.
  all_goals
    obtain ⟨jm79, jd79, jm379, jdata79⟩ :=
      hblank_phase (456 - 80 - (Ppu.tickN p m 80).1.mode_3_length - 1)
        (Ppu.tickN (Ppu.tickN p m 80).1 (Ppu.tickN p m 80).2
          ((Ppu.tickN p m 80).1.mode_3_length)).1
        (Ppu.tickN (Ppu.tickN p m 80).1 (Ppu.tickN p m 80).2
          ((Ppu.tickN p m 80).1.mode_3_length)).2 hmodeB
        (by rw [hdotsB, hm3B]; omega)
  all_goals
    obtain ⟨jmC, jdC, jm3C, jlyC, jdataC⟩ :=
      tick_hblank_last _ _ jm79
        (by rw [jd79, jm379, hdotsB, hm3B]; omega)
        (by rw [jdata79 0xFF44 (by norm_num)]; exact hlyB.trans_lt hly)
  · -- the third tick call
    simp only [Ppu.tick]
    rw [if_neg hlcdcB]
  · -- HBlank mode during the stretch
    intro k hk
    exact (hblank_phase k _ _ hmodeB (by rw [hdotsB, hm3B]; omega)).1
  · -- OAM scan after the full line
    have eC : (Ppu.tickN (Ppu.tickN (Ppu.tickN p m 80).1 (Ppu.tickN p m 80).2
          ((Ppu.tickN p m 80).1.mode_3_length)).1
        (Ppu.tickN (Ppu.tickN p m 80).1 (Ppu.tickN p m 80).2
          ((Ppu.tickN p m 80).1.mode_3_length)).2
        (456 - 80 - (Ppu.tickN p m 80).1.mode_3_length)).1 =
        ((Ppu.tickN (Ppu.tickN (Ppu.tickN p m 80).1 (Ppu.tickN p m 80).2
            ((Ppu.tickN p m 80).1.mode_3_length)).1
          (Ppu.tickN (Ppu.tickN p m 80).1 (Ppu.tickN p m 80).2
            ((Ppu.tickN p m 80).1.mode_3_length)).2
          (456 - 80 - (Ppu.tickN p m 80).1.mode_3_length - 1)).1.tick_single
         (Ppu.tickN (Ppu.tickN (Ppu.tickN p m 80).1 (Ppu.tickN p m 80).2
            ((Ppu.tickN p m 80).1.mode_3_length)).1
          (Ppu.tickN (Ppu.tickN p m 80).1 (Ppu.tickN p m 80).2
            ((Ppu.tickN p m 80).1.mode_3_length)).2
          (456 - 80 - (Ppu.tickN p m 80).1.mode_3_length - 1)).2).1 := by
      conv_lhs => rw [show 456 - 80 - (Ppu.tickN p m 80).1.mode_3_length =
        (456 - 80 - (Ppu.tickN p m 80).1.mode_3_length - 1) + 1 by omega]
      exact congrArg Prod.fst (tickN_add _ 1 _ _)
    rw [eC]; exact jmC
  · -- LY advanced by exactly one
    have eCm : (Ppu.tickN (Ppu.tickN (Ppu.tickN p m 80).1 (Ppu.tickN p m 80).2
          ((Ppu.tickN p m 80).1.mode_3_length)).1
        (Ppu.tickN (Ppu.tickN p m 80).1 (Ppu.tickN p m 80).2
          ((Ppu.tickN p m 80).1.mode_3_length)).2
        (456 - 80 - (Ppu.tickN p m 80).1.mode_3_length)).2 =
        ((Ppu.tickN (Ppu.tickN (Ppu.tickN p m 80).1 (Ppu.tickN p m 80).2
            ((Ppu.tickN p m 80).1.mode_3_length)).1
          (Ppu.tickN (Ppu.tickN p m 80).1 (Ppu.tickN p m 80).2
            ((Ppu.tickN p m 80).1.mode_3_length)).2
          (456 - 80 - (Ppu.tickN p m 80).1.mode_3_length - 1)).1.tick_single
         (Ppu.tickN (Ppu.tickN (Ppu.tickN p m 80).1 (Ppu.tickN p m 80).2
            ((Ppu.tickN p m 80).1.mode_3_length)).1
          (Ppu.tickN (Ppu.tickN p m 80).1 (Ppu.tickN p m 80).2
            ((Ppu.tickN p m 80).1.mode_3_length)).2
          (456 - 80 - (Ppu.tickN p m 80).1.mode_3_length - 1)).2).2 := by
      conv_lhs => rw [show 456 - 80 - (Ppu.tickN p m 80).1.mode_3_length =
        (456 - 80 - (Ppu.tickN p m 80).1.mode_3_length - 1) + 1 by omega]
      exact congrArg Prod.snd (tickN_add _ 1 _ _)
    rw [eCm, jlyC, jdata79 0xFF44 (by norm_num), hlyB]
  · -- dot bookkeeping: the three stretches sum to 456
    omega

theorem ppu_line_timing_witness :
    (Memory.new.data 0xFF40 &&& 0x80 ≠ 0) ∧
    Ppu.new.mode = PpuMode.oamScan ∧ Ppu.new.dots = 0 ∧
    Memory.new.data 0xFF44 < 143 ∧
    (∃ pA mA pB mB pC mC,
      Ppu.new.tick Memory.new 80 = (pA, mA) ∧
      (∀ k, k < 80 →
        ((Ppu.tickN Ppu.new Memory.new k).1).mode = PpuMode.oamScan) ∧
      pA.mode = PpuMode.drawing ∧
      172 ≤ pA.mode_3_length ∧ pA.mode_3_length ≤ 289 ∧
      pA.tick mA pA.mode_3_length = (pB, mB) ∧
      (∀ k, k < pA.mode_3_length →
        ((Ppu.tickN pA mA k).1).mode = PpuMode.drawing) ∧
      pB.mode = PpuMode.hblank ∧
      pB.tick mB (456 - 80 - pA.mode_3_length) = (pC, mC) ∧
      (∀ k, k < 456 - 80 - pA.mode_3_length →
        ((Ppu.tickN pB mB k).1).mode = PpuMode.hblank) ∧
      pC.mode = PpuMode.oamScan ∧
      mC.data 0xFF44 = Memory.new.data 0xFF44 + 1 ∧
      80 + pA.mode_3_length + (456 - 80 - pA.mode_3_length) = 456) :=
  ⟨by decide, rfl, rfl, by decide,
   ppu_line_timing Ppu.new Memory.new (by decide) rfl rfl (by decide)⟩

end GB
